import Mathlib

/-
Verification development for the KidsMathCrossword puzzle engine.

The repository's core is a puzzle generator (server/puzzleGenerator.ts,
exporting generatePuzzle) and two validators: the server-side
validateHorizontalEquations / validateVerticalEquations in
server/routes.ts (backing the POST /api/validate-solution endpoint), and
the client-side getEquationStatus hook.

Modelling conventions, used throughout:

* JavaScript numbers are modelled as exact rationals (ℚ).  Floating-point
  rounding and overflow are not modelled; every concrete value appearing
  in the claims (small integers, halves) is exactly representable as a
  double, so the abstraction is faithful on all inputs considered here.
  The IEEE non-finite values Infinity, -Infinity and NaN, which the
  validators can produce by dividing by zero, are modelled explicitly by
  the type XQ below.
* Cell values are one of: the empty string (unfilled), a numeric
  value (covering both raw numbers and numeric strings: the code always
  round-trips them through String/parseFloat without loss), one of the
  four operator symbols, or the equals sign.  The inductive CellValue
  captures exactly this value domain.
* Math.random() draws are modelled by an explicit stream of naturals
  (Rng := ℕ → ℕ); each call site `Math.floor(Math.random()*k)` consumes
  one stream element d and uses d % k, which reaches exactly the values
  the original can produce.  Generation functions thread the stream
  explicitly and return the advanced stream.
* The JS tolerance literal 0.001 is modelled as the rational 1/1000.
-/

/-- The four arithmetic operator symbols. -/
inductive Op where
  | add
  | sub
  | mul
  | div
deriving DecidableEq, Repr

/-- The value stored in a grid cell: empty string, a number (or numeric
string), an operator symbol, or the equals sign. -/
inductive CellValue where
  | empty
  | num (q : ℚ)
  | vop (o : Op)
  | veq
deriving DecidableEq, Repr

/-- Cell type tags, from the GridCell type of shared/schema.ts. -/
inductive CellType where
  | number
  | input
  | operator
  | blocked
deriving DecidableEq, Repr

/-- A grid cell (GridCell of shared/schema.ts): type, value, editability
flag and position. -/
structure Cell where
  ctype : CellType
  value : CellValue
  isEditable : Bool
  row : ℕ
  col : ℕ
deriving DecidableEq, Repr

/-- A grid is a list of rows of cells. -/
abbrev Grid := List (List Cell)

/-- A generated puzzle: the player-facing grid and the solution grid. -/
structure Puzzle where
  grid : Grid
  solution : Grid
deriving DecidableEq, Repr

/-- Difficulty configuration (DifficultyConfig of puzzleGenerator). -/
structure DifficultyConfig where
  gridSize : ℕ
  minNumber : ℕ
  maxNumber : ℕ
  operators : List Op
  allowNegativeResults : Bool
  allowDecimals : Bool
deriving DecidableEq, Repr

/-- The three difficulties. -/
inductive Difficulty where
  | easy
  | medium
  | hard
deriving DecidableEq, Repr

/-- DIFFICULTY_CONFIGS.easy. -/
def easyConfig : DifficultyConfig :=
  { gridSize := 5, minNumber := 1, maxNumber := 10,
    operators := [Op.add, Op.sub],
    allowNegativeResults := false, allowDecimals := false }

/-- DIFFICULTY_CONFIGS.medium. -/
def mediumConfig : DifficultyConfig :=
  { gridSize := 7, minNumber := 1, maxNumber := 20,
    operators := [Op.add, Op.sub, Op.mul],
    allowNegativeResults := true, allowDecimals := false }

/-- DIFFICULTY_CONFIGS.hard. -/
def hardConfig : DifficultyConfig :=
  { gridSize := 9, minNumber := 1, maxNumber := 50,
    operators := [Op.add, Op.sub, Op.mul, Op.div],
    allowNegativeResults := true, allowDecimals := false }

/-- Lookup in DIFFICULTY_CONFIGS. -/
def configFor : Difficulty → DifficultyConfig
  | Difficulty.easy => easyConfig
  | Difficulty.medium => mediumConfig
  | Difficulty.hard => hardConfig

/-
Arithmetic layer.  Mathlib's Rat.add/sub/mul/inv do not reduce inside the
kernel, so the model computes with mkRat-based wrappers instead; each
wrapper is proved equal to the corresponding Mathlib operation just
below, so every theorem phrased with `+`, `-`, `*`, `/`, `⌊·⌋` or `|·|`
on ℚ applies to the wrappers and vice versa.
-/

/-- Rational addition, kernel-computable form. -/
def qadd (a b : ℚ) : ℚ := mkRat (a.num * b.den + b.num * a.den) (a.den * b.den)

/-- Rational subtraction, kernel-computable form. -/
def qsub (a b : ℚ) : ℚ := mkRat (a.num * b.den - b.num * a.den) (a.den * b.den)

/-- Rational multiplication, kernel-computable form. -/
def qmul (a b : ℚ) : ℚ := mkRat (a.num * b.num) (a.den * b.den)

/-- Rational inverse, kernel-computable form. -/
def qinv (b : ℚ) : ℚ := Rat.divInt b.den b.num

/-- Rational division, kernel-computable form. -/
def qdiv (a b : ℚ) : ℚ := qmul a (qinv b)

/-- Absolute value, kernel-computable form. -/
def qabs (q : ℚ) : ℚ := if Rat.blt q 0 then -q else q

/-- Math.floor on a rational, kernel-computable form. -/
def qfloor (q : ℚ) : ℤ := q.num / q.den

theorem qadd_eq (a b : ℚ) : qadd a b = a + b := (Rat.add_def' a b).symm

theorem qsub_eq (a b : ℚ) : qsub a b = a - b := (Rat.sub_def' a b).symm

theorem qmul_eq (a b : ℚ) : qmul a b = a * b := by
  rw [qmul, Rat.mul_def, Rat.normalize_eq_mkRat]

theorem qinv_eq (b : ℚ) : qinv b = b⁻¹ := (Rat.inv_def b).symm

theorem qdiv_eq (a b : ℚ) : qdiv a b = a / b := by
  rw [qdiv, qmul_eq, qinv_eq, div_eq_mul_inv]

theorem qabs_eq (q : ℚ) : qabs q = |q| := by
  rw [qabs]
  by_cases h : q < 0
  · rw [if_pos (by exact h), abs_of_neg h]
  · rw [if_neg (by exact h), abs_of_nonneg (not_lt.mp h)]

theorem qfloor_eq (q : ℚ) : qfloor q = ⌊q⌋ := (Rat.floor_def).symm

/-- evaluateEquation of puzzleGenerator.ts (two-operand form): null on
division by zero and on non-integer quotients (Number.isInteger check,
modelled as the rational having denominator 1). -/
def evaluateEquation (num1 : ℚ) (op : Op) (num2 : ℚ) : Option ℚ :=
  match op with
  | Op.add => some (qadd num1 num2)
  | Op.sub => some (qsub num1 num2)
  | Op.mul => some (qmul num1 num2)
  | Op.div =>
      if num2 = 0 then none
      else if (qdiv num1 num2).den = 1 then some (qdiv num1 num2) else none

/-- Whether an operator participates in the first (multiplication and
division) pass of evaluateFullEquation. -/
def isMulDivOp (o : Op) : Bool :=
  o = Op.mul || o = Op.div

/-- First pass of evaluateFullEquation (puzzleGenerator.ts): walk the
operator list left to right; a `*` or `/` collapses the current operand
pair via evaluateEquation (null aborts the whole evaluation), splicing
the result in place and rechecking the same index; other operators are
kept and the scan moves on.  The splice-and-recheck loop of the source
is expressed as structural recursion on the operator list; the source
never reaches this code with fewer operands than operators + 1, and that
(unreachable) case is mapped to failure. -/
def genCollapseMulDiv : List ℚ → List Op → Option (List ℚ × List Op)
  | ns, [] => some (ns, [])
  | n0 :: n1 :: ns, op :: ops =>
      if isMulDivOp op then
        match evaluateEquation n0 op n1 with
        | none => none
        | some r => genCollapseMulDiv (r :: ns) ops
      else
        match genCollapseMulDiv (n1 :: ns) ops with
        | none => none
        | some (ns', ops') => some (n0 :: ns', op :: ops')
  | _, _ :: _ => none

/-- Second pass of evaluateFullEquation: fold the remaining operators
strictly left to right through evaluateEquation, starting from the first
operand. -/
def genFoldAddSub (acc : ℚ) : List ℚ → List Op → Option ℚ
  | _, [] => some acc
  | n :: ns, op :: ops =>
      match evaluateEquation acc op n with
      | none => none
      | some r => genFoldAddSub r ns ops
  | [], _ :: _ => none

/-- evaluateFullEquation of puzzleGenerator.ts: empty operand list is
null, a single operand is returned unchanged, otherwise the mul/div
collapse pass followed by the add/sub fold. -/
def evaluateFullEquation (values : List ℚ) (operators : List Op) : Option ℚ :=
  match values with
  | [] => none
  | [v] => some v
  | _ :: _ :: _ =>
      match genCollapseMulDiv values operators with
      | none => none
      | some (ns, ops) =>
          match ns with
          | [] => none
          | n :: rest => genFoldAddSub n rest ops

/-- Modelled from the spec (for the refinement half of the precedence
claim): the index of the leftmost `*` or `/` in an operator list. -/
def leftmostMulDiv : List Op → Option ℕ
  | [] => none
  | o :: os =>
      if isMulDivOp o then some 0
      else (leftmostMulDiv os).map (· + 1)

/-- Modelled from the spec: collapse the operand pair at position j into
a single value using the operator at position j, removing the consumed
operator and operand so the sequence shrinks by one element. -/
def collapseAt (ns : List ℚ) (ops : List Op) (j : ℕ) : Option (List ℚ × List Op) :=
  match ns.get? j, ns.get? (j + 1), ops.get? j with
  | some a, some b, some op =>
      (evaluateEquation a op b).map
        (fun r => (ns.take j ++ r :: ns.drop (j + 2), ops.eraseIdx j))
  | _, _, _ => none

/-- Modelled from the spec: repeatedly collapse the leftmost `*` or `/`
pair until none remain.  The fuel argument only forces termination; each
collapse removes one `*`/`/`, so any fuel at least the number of
`*`/`/` operators is enough and the fuel-exhausted branch is never
taken by specEvaluate. -/
def specPhase1 : ℕ → List ℚ → List Op → Option (List ℚ × List Op)
  | 0, ns, ops =>
      match leftmostMulDiv ops with
      | none => some (ns, ops)
      | some _ => none
  | fuel + 1, ns, ops =>
      match leftmostMulDiv ops with
      | none => some (ns, ops)
      | some j =>
          match collapseAt ns ops j with
          | none => none
          | some (ns', ops') => specPhase1 fuel ns' ops'

/-- Modelled from the spec: fold the remaining `+`/`-` sequence strictly
left to right (total; after phase 1 only `+`/`-` operators remain). -/
def specFoldAddSub (acc : ℚ) : List Op → List ℚ → ℚ
  | [], _ => acc
  | _ :: _, [] => acc
  | op :: ops, n :: ns =>
      specFoldAddSub (if op = Op.add then qadd acc n else qsub acc n) ops ns

/-- Number of `*`/`/` operators: adequate fuel for specPhase1. -/
def countMulDiv (ops : List Op) : ℕ := ops.countP isMulDivOp

/-- Modelled from the spec (§4.1 of spec.md): the precedence algorithm as
literally described — collapse leftmost `*`/`/` pairs until none
remain, then fold `+`/`-` left to right; single operand returned
unchanged. -/
def specEvaluate (values : List ℚ) (operators : List Op) : Option ℚ :=
  match values with
  | [] => none
  | [v] => some v
  | _ :: _ :: _ =>
      match specPhase1 (countMulDiv operators) values operators with
      | none => none
      | some (ns, ops) =>
          match ns with
          | [] => none
          | n :: rest => some (specFoldAddSub n ops rest)

/-- Shifting a collapse position past a kept head operand and operator. -/
theorem collapseAt_cons (n0 : ℚ) (op : Op) (ns : List ℚ) (ops : List Op) (j : ℕ) :
    collapseAt (n0 :: ns) (op :: ops) (j + 1) =
      (collapseAt ns ops j).map (fun p => (n0 :: p.1, op :: p.2)) := by
  unfold collapseAt
  simp only [List.get?_cons_succ, List.take_succ_cons, List.drop_succ_cons,
    List.eraseIdx_cons_succ]
  cases h1 : ns.get? j <;> cases h2 : ns.get? (j + 1) <;> cases h3 : ops.get? j <;>
    simp only [Option.map_none', Option.map_some']
  cases evaluateEquation _ _ _ <;> simp

/-- specPhase1 ignores a leading non-mul/div operator: the head operand
and operator are carried through unchanged. -/
theorem specPhase1_skip (op : Op) (h : isMulDivOp op = false) :
    ∀ (fuel : ℕ) (n0 : ℚ) (ns : List ℚ) (ops : List Op),
      specPhase1 fuel (n0 :: ns) (op :: ops) =
        (specPhase1 fuel ns ops).map (fun p => (n0 :: p.1, op :: p.2)) := by
  intro fuel
  induction fuel with
  | zero =>
      intro n0 ns ops
      cases hl : leftmostMulDiv ops <;>
        simp [specPhase1, leftmostMulDiv, h, hl]
  | succ fuel ih =>
      intro n0 ns ops
      cases hl : leftmostMulDiv ops with
      | none => simp [specPhase1, leftmostMulDiv, h, hl]
      | some j =>
          simp only [specPhase1, leftmostMulDiv, h, Bool.false_eq_true, if_false, hl,
            Option.map_some']
          rw [collapseAt_cons]
          cases hc : collapseAt ns ops j with
          | none => simp
          | some p => simpa using ih n0 p.1 p.2

/-- If no mul/div operator occurs, leftmostMulDiv finds nothing, and
conversely. -/
theorem leftmostMulDiv_none {ops : List Op} (h : leftmostMulDiv ops = none) :
    ∀ o ∈ ops, isMulDivOp o = false := by
  induction ops with
  | nil => intro o ho; cases ho
  | cons a l ih =>
      intro o ho
      by_cases ha : isMulDivOp a
      · simp [leftmostMulDiv, ha] at h
      · rw [List.mem_cons] at ho
        rcases ho with ho | ho
        · rw [ho]; simpa using ha
        · refine ih ?_ o ho
          simp only [leftmostMulDiv, ha, Bool.false_eq_true, if_false,
            Option.map_eq_none'] at h
          exact h

/-- A successful collapse shortens both lists by one while preserving the
operand-count invariant. -/
theorem collapseAt_some_length {ns : List ℚ} {ops : List Op} {j : ℕ}
    {ns' : List ℚ} {ops' : List Op}
    (h : collapseAt ns ops j = some (ns', ops'))
    (hl : ns.length = ops.length + 1) : ns'.length = ops'.length + 1 := by
  unfold collapseAt at h
  split at h
  · next a b op h1 h2 h3 =>
      rw [Option.map_eq_some'] at h
      obtain ⟨r, _, hpair⟩ := h
      have hj2 : j + 1 < ns.length := (List.get?_eq_some.mp h2).1
      have hj3 : j < ops.length := (List.get?_eq_some.mp h3).1
      cases hpair
      simp only [List.length_append, List.length_take, List.length_cons,
        List.length_drop, List.length_eraseIdx, if_pos hj3,
        min_eq_left (by omega : j ≤ ns.length)]
      omega
  · exact absurd h (by simp)

/-- specPhase1 preserves the operand-count invariant and, on success,
leaves no mul/div operator. -/
theorem specPhase1_post :
    ∀ (fuel : ℕ) (ns : List ℚ) (ops : List Op) (ns' : List ℚ) (ops' : List Op),
      specPhase1 fuel ns ops = some (ns', ops') → ns.length = ops.length + 1 →
      ns'.length = ops'.length + 1 ∧ ∀ o ∈ ops', isMulDivOp o = false := by
  intro fuel
  induction fuel with
  | zero =>
      intro ns ops ns' ops' h hl
      cases hm : leftmostMulDiv ops with
      | none =>
          simp only [specPhase1, hm, Option.some.injEq, Prod.mk.injEq] at h
          obtain ⟨h1, h2⟩ := h
          subst h1 h2
          exact ⟨hl, leftmostMulDiv_none hm⟩
      | some j =>
          rw [specPhase1] at h
          rw [hm] at h
          exact Option.noConfusion h
  | succ fuel ih =>
      intro ns ops ns' ops' h hl
      cases hm : leftmostMulDiv ops with
      | none =>
          simp only [specPhase1, hm, Option.some.injEq, Prod.mk.injEq] at h
          obtain ⟨h1, h2⟩ := h
          subst h1 h2
          exact ⟨hl, leftmostMulDiv_none hm⟩
      | some j =>
          simp only [specPhase1, hm] at h
          cases hc : collapseAt ns ops j <;> rw [hc] at h
          · exact Option.noConfusion h
          · exact ih _ _ _ _ h (collapseAt_some_length hc hl)

/-- The source first pass equals the spec-described leftmost-collapse
loop, given adequate fuel and the operand-count invariant. -/
theorem genCollapse_eq_specPhase1 :
    ∀ (ops : List Op) (ns : List ℚ) (fuel : ℕ),
      ns.length = ops.length + 1 → countMulDiv ops ≤ fuel →
      genCollapseMulDiv ns ops = specPhase1 fuel ns ops := by
  intro ops
  induction ops with
  | nil =>
      intro ns fuel _ _
      cases fuel <;> simp [genCollapseMulDiv, specPhase1, leftmostMulDiv]
  | cons op ops ih =>
      intro ns fuel h hc
      match ns with
      | [] => simp at h
      | [n0] => simp at h
      | n0 :: n1 :: ns' =>
          by_cases hmd : isMulDivOp op
          · have hcount : countMulDiv (op :: ops) = countMulDiv ops + 1 := by
              simp [countMulDiv, List.countP_cons, hmd]
            cases fuel with
            | zero => rw [hcount] at hc; omega
            | succ fuel =>
                have hlm : leftmostMulDiv (op :: ops) = some 0 := by
                  simp [leftmostMulDiv, hmd]
                simp only [specPhase1, hlm]
                have hca : collapseAt (n0 :: n1 :: ns') (op :: ops) 0 =
                    (evaluateEquation n0 op n1).map (fun r => (r :: ns', ops)) := by
                  simp [collapseAt]
                rw [hca]
                simp only [genCollapseMulDiv, hmd, if_true]
                cases he : evaluateEquation n0 op n1 with
                | none => simp
                | some r =>
                    simp only [Option.map_some']
                    refine ih (r :: ns') fuel ?_ ?_
                    · simp at h ⊢; omega
                    · rw [hcount] at hc; omega
          · have hmd' : isMulDivOp op = false := by simpa using hmd
            have hcount : countMulDiv (op :: ops) = countMulDiv ops := by
              simp [countMulDiv, List.countP_cons, hmd']
            rw [specPhase1_skip op hmd' fuel]
            simp only [genCollapseMulDiv, hmd', Bool.false_eq_true, if_false]
            rw [ih (n1 :: ns') fuel (by simp at h ⊢; omega) (by rw [hcount] at hc; exact hc)]
            cases specPhase1 fuel (n1 :: ns') ops <;> simp

/-- The source second pass equals the spec left fold when only add/sub
operators remain and operands suffice. -/
theorem genFold_eq_specFold :
    ∀ (ops : List Op) (ns : List ℚ) (acc : ℚ),
      ops.length ≤ ns.length → (∀ o ∈ ops, isMulDivOp o = false) →
      genFoldAddSub acc ns ops = some (specFoldAddSub acc ops ns) := by
  intro ops
  induction ops with
  | nil => intro ns acc _ _; cases ns <;> rfl
  | cons op ops ih =>
      intro ns acc hlen hmd
      cases ns with
      | nil => simp at hlen
      | cons n ns =>
          have hop : isMulDivOp op = false := hmd op (by simp)
          have hrest : ∀ o ∈ ops, isMulDivOp o = false := by
            intro o ho
            exact hmd o (List.mem_cons_of_mem _ ho)
          cases op with
          | add =>
              simp only [genFoldAddSub, evaluateEquation, specFoldAddSub, if_pos rfl]
              exact ih ns (qadd acc n) (by simp only [List.length_cons] at hlen; omega) hrest
          | sub =>
              simp only [genFoldAddSub, evaluateEquation, specFoldAddSub]
              rw [if_neg (by simp)]
              exact ih ns (qsub acc n) (by simp only [List.length_cons] at hlen; omega) hrest
          | mul => simp [isMulDivOp] at hop
          | div => simp [isMulDivOp] at hop

/-- evaluateFullEquation refines the spec-described precedence algorithm
on well-formed inputs (one more operand than operators). -/
theorem evaluateFullEquation_eq_specEvaluate (values : List ℚ) (operators : List Op)
    (h : values.length = operators.length + 1) :
    evaluateFullEquation values operators = specEvaluate values operators := by
  match values with
  | [] => rfl
  | [v] => rfl
  | v0 :: v1 :: rest =>
      rw [evaluateFullEquation, specEvaluate,
        genCollapse_eq_specPhase1 operators (v0 :: v1 :: rest) (countMulDiv operators) h
          le_rfl]
      cases hg : specPhase1 (countMulDiv operators) (v0 :: v1 :: rest) operators with
      | none => rfl
      | some p =>
          obtain ⟨ns', ops'⟩ := p
          have hpost := specPhase1_post _ _ _ _ _ hg h
          cases ns' with
          | nil => exact absurd hpost.1 (by simp)
          | cons n rest' =>
              simp only
              rw [genFold_eq_specFold ops' rest' n (by have := hpost.1; simp at this; omega)
                hpost.2]

/-
Validator embedding.  Both validators (server/routes.ts and the client
getEquationStatus hook) parse cell values with parseFloat(...) || 0, so
every operand entering their inline evaluators is a finite number; the
only non-finite values arise from dividing by zero inside the first
evaluation pass.  XQ extends ℚ with the IEEE special values so those
paths are modelled exactly.  JavaScript's negative zero is not
distinguished from zero; it could only flip the sign of an infinity,
and every validity comparison fails on any infinity regardless of sign,
so the outcome is unaffected.
-/

/-- A JavaScript number: finite rational, plus/minus infinity, or NaN. -/
inductive XQ where
  | fin (q : ℚ)
  | pinf
  | ninf
  | nan
deriving DecidableEq, Repr

/-- IEEE negation. -/
def xneg : XQ → XQ
  | XQ.fin q => XQ.fin (-q)
  | XQ.pinf => XQ.ninf
  | XQ.ninf => XQ.pinf
  | XQ.nan => XQ.nan

/-- IEEE addition (without rounding). -/
def xadd : XQ → XQ → XQ
  | XQ.nan, _ => XQ.nan
  | _, XQ.nan => XQ.nan
  | XQ.pinf, XQ.ninf => XQ.nan
  | XQ.ninf, XQ.pinf => XQ.nan
  | XQ.pinf, _ => XQ.pinf
  | _, XQ.pinf => XQ.pinf
  | XQ.ninf, _ => XQ.ninf
  | _, XQ.ninf => XQ.ninf
  | XQ.fin a, XQ.fin b => XQ.fin (qadd a b)

/-- IEEE subtraction (without rounding). -/
def xsub : XQ → XQ → XQ
  | XQ.nan, _ => XQ.nan
  | _, XQ.nan => XQ.nan
  | XQ.pinf, XQ.pinf => XQ.nan
  | XQ.ninf, XQ.ninf => XQ.nan
  | XQ.pinf, _ => XQ.pinf
  | XQ.ninf, _ => XQ.ninf
  | _, XQ.pinf => XQ.ninf
  | _, XQ.ninf => XQ.pinf
  | XQ.fin a, XQ.fin b => XQ.fin (qsub a b)

/-- IEEE multiplication (without rounding). -/
def xmul : XQ → XQ → XQ
  | XQ.nan, _ => XQ.nan
  | _, XQ.nan => XQ.nan
  | XQ.fin a, XQ.fin b => XQ.fin (qmul a b)
  | XQ.fin a, XQ.pinf =>
      if a = 0 then XQ.nan else if Rat.blt 0 a then XQ.pinf else XQ.ninf
  | XQ.fin a, XQ.ninf =>
      if a = 0 then XQ.nan else if Rat.blt 0 a then XQ.ninf else XQ.pinf
  | XQ.pinf, XQ.fin b =>
      if b = 0 then XQ.nan else if Rat.blt 0 b then XQ.pinf else XQ.ninf
  | XQ.ninf, XQ.fin b =>
      if b = 0 then XQ.nan else if Rat.blt 0 b then XQ.ninf else XQ.pinf
  | XQ.pinf, XQ.pinf => XQ.pinf
  | XQ.pinf, XQ.ninf => XQ.ninf
  | XQ.ninf, XQ.pinf => XQ.ninf
  | XQ.ninf, XQ.ninf => XQ.pinf

/-- IEEE division (without rounding): finite / 0 gives a signed infinity
or NaN, divisions by an infinity give 0. -/
def xdiv : XQ → XQ → XQ
  | XQ.nan, _ => XQ.nan
  | _, XQ.nan => XQ.nan
  | XQ.fin a, XQ.fin b =>
      if b = 0 then
        if a = 0 then XQ.nan else if Rat.blt 0 a then XQ.pinf else XQ.ninf
      else XQ.fin (qdiv a b)
  | XQ.fin _, XQ.pinf => XQ.fin 0
  | XQ.fin _, XQ.ninf => XQ.fin 0
  | XQ.pinf, XQ.fin b => if Rat.blt b 0 then XQ.ninf else XQ.pinf
  | XQ.ninf, XQ.fin b => if Rat.blt b 0 then XQ.pinf else XQ.ninf
  | XQ.pinf, _ => XQ.nan
  | XQ.ninf, _ => XQ.nan

/-- parseFloat(value) || 0: numeric values parse to themselves, anything
else (empty, operator symbols, equals sign) parses to NaN and the || 0
coerces it to 0. -/
def toNumberOr0 : CellValue → ℚ
  | CellValue.num q => q
  | _ => 0

/-- Value of the i-th cell of a row, when present. -/
def cellValueAt (cells : List Cell) (i : ℕ) : Option CellValue :=
  (cells.get? i).map Cell.value

/-- Server-side `cells[i]?.value || '+'`: a missing cell, an empty value
and the number 0 (all falsy in JS) default to '+'. -/
def serverOpOf (v : Option CellValue) : CellValue :=
  match v with
  | none => CellValue.vop Op.add
  | some CellValue.empty => CellValue.vop Op.add
  | some (CellValue.num q) => if q = 0 then CellValue.vop Op.add else CellValue.num q
  | some x => x

/-- Client-side `cells[i]?.value?.toString() || '+'`: the value is
stringified first, so the number 0 becomes the truthy string "0" and is
kept; only a missing cell or the empty string default to '+'. -/
def clientOpOf (v : Option CellValue) : CellValue :=
  match v with
  | none => CellValue.vop Op.add
  | some CellValue.empty => CellValue.vop Op.add
  | some x => x

/-- Whether a cell value is the '*' or '/' operator symbol. -/
def isMulDivV (v : CellValue) : Bool :=
  v = CellValue.vop Op.mul || v = CellValue.vop Op.div

/-- First pass of the inline evaluateEquation shared by both validators:
splice-collapse every '*'/'/' left to right with no failure checking
(division by zero produces an infinity or NaN).  Expressed as structural
recursion on the operator list; the under-populated operand cases mirror
Array.prototype.splice acting past the end of the array, where the
undefined operands make the collapsed entry NaN. -/
def jsPass1 : List XQ → List CellValue → List XQ × List CellValue
  | ns, [] => (ns, [])
  | n0 :: n1 :: ns, op :: ops =>
      if op = CellValue.vop Op.mul then jsPass1 (xmul n0 n1 :: ns) ops
      else if op = CellValue.vop Op.div then jsPass1 (xdiv n0 n1 :: ns) ops
      else
        let p := jsPass1 (n1 :: ns) ops
        (n0 :: p.1, op :: p.2)
  | [n0], op :: ops =>
      if isMulDivV op then jsPass1 [XQ.nan] ops
      else
        let p := jsPass1 [] ops
        (n0 :: p.1, op :: p.2)
  | [], op :: ops =>
      if isMulDivV op then jsPass1 [XQ.nan] ops
      else
        let p := jsPass1 [] ops
        (p.1, op :: p.2)

/-- Second pass, server variant (routes.ts): `ops[i] === '+' ? result +
nums[i+1] : result - nums[i+1]` — any operator other than '+' subtracts.
A missing operand is undefined and poisons the fold with NaN. -/
def jsPass2Server : XQ → List XQ → List CellValue → XQ
  | acc, _, [] => acc
  | acc, ns, op :: ops =>
      let n := ns.headD XQ.nan
      jsPass2Server (if op = CellValue.vop Op.add then xadd acc n else xsub acc n)
        ns.tail ops

/-- Second pass, client variant (getEquationStatus): switch with cases
'+' and '-' and a default that resets the accumulator to 0. -/
def jsPass2Client : XQ → List XQ → List CellValue → XQ
  | acc, _, [] => acc
  | acc, ns, op :: ops =>
      let n := ns.headD XQ.nan
      let acc' :=
        match op with
        | CellValue.vop Op.add => xadd acc n
        | CellValue.vop Op.sub => xsub acc n
        | _ => XQ.fin 0
      jsPass2Client acc' ns.tail ops

/-- The inline evaluateEquation of validateHorizontalEquations and
validateVerticalEquations in routes.ts. -/
def serverEvaluateEquation (values : List ℚ) (operators : List CellValue) : XQ :=
  let p := jsPass1 (values.map XQ.fin) operators
  jsPass2Server (p.1.headD XQ.nan) p.1.tail p.2

/-- The inline evaluateEquation of the client getEquationStatus. -/
def clientEvaluateEquation (values : List ℚ) (operators : List CellValue) : XQ :=
  let p := jsPass1 (values.map XQ.fin) operators
  jsPass2Client (p.1.headD XQ.nan) p.1.tail p.2

/-- Tolerance test Math.abs(expected - result) < 0.001 together with the isNaN
guards: a non-finite expected value always fails (NaN comparisons are
false and an infinity is never within tolerance of a finite result). -/
def xNear (x : XQ) (r : ℚ) : Bool :=
  match x with
  | XQ.fin e => decide (qabs (qsub e r) < mkRat 1 1000)
  | _ => false

/-- A server-side equation status as pushed by routes.ts: the row or
column index and the validity flag.  The human-readable equation string
is not modelled (the spec declares its format a non-contract). -/
structure SStatus where
  idx : ℕ
  isValid : Bool
deriving DecidableEq, Repr

/-- A client-side equation status: index, validity and completeness. -/
structure CStatus where
  idx : ℕ
  isValid : Bool
  isComplete : Bool
deriving DecidableEq, Repr

/-- The even indices 0, 2, 4, ... below n (the `for (i = 0; i < n;
i += 2)` loops). -/
def evenIndicesBelow (n : ℕ) : List ℕ :=
  (List.range n).filter (fun i => i % 2 = 0)

/-- Cell lookup `grid[row]?.[col]`. -/
def gcell (grid : Grid) (row col : ℕ) : Option Cell :=
  (grid.get? row).bind (fun r => r.get? col)

/-- Operand/operator extraction of the server 5x5/7x7 horizontal branch:
number and input cells contribute parseFloat(value) || 0 as operands (in
order), operator cells other than '=' contribute their value. -/
def serverCollectRow : List Cell → List ℚ × List CellValue
  | [] => ([], [])
  | c :: rest =>
      let p := serverCollectRow rest
      if c.ctype = CellType.number ∨ c.ctype = CellType.input then
        (toNumberOr0 c.value :: p.1, p.2)
      else if c.ctype = CellType.operator ∧ c.value ≠ CellValue.veq then
        (p.1, c.value :: p.2)
      else p

/-- Server 5x5/7x7 horizontal row status: skipped (continue) with fewer
than 2 values or no operator; otherwise the last value is the claimed
result and the rest feed the evaluator. -/
def serverSingleHRow (row : ℕ) (cells : List Cell) : Option SStatus :=
  let vo := serverCollectRow cells
  if vo.1.length < 2 ∨ vo.2.length < 1 then none
  else
    some { idx := row,
           isValid := xNear (serverEvaluateEquation vo.1.dropLast vo.2) (vo.1.getLastD 0) }

/-- Server 9x9 horizontal row status: v0 op1 v1 = r1, r1 op2 v2 = r2 at
columns 0..8; both mini-equations must hold. -/
def serverDualHRow (row : ℕ) (cells : List Cell) : SStatus :=
  let v0 := toNumberOr0 ((cellValueAt cells 0).getD CellValue.empty)
  let op1 := serverOpOf (cellValueAt cells 1)
  let v1 := toNumberOr0 ((cellValueAt cells 2).getD CellValue.empty)
  let r1 := toNumberOr0 ((cellValueAt cells 4).getD CellValue.empty)
  let op2 := serverOpOf (cellValueAt cells 5)
  let v2 := toNumberOr0 ((cellValueAt cells 6).getD CellValue.empty)
  let r2 := toNumberOr0 ((cellValueAt cells 8).getD CellValue.empty)
  let ok1 := xNear (serverEvaluateEquation [v0, v1] [op1]) r1
  let ok2 := xNear (serverEvaluateEquation [r1, v2] [op2]) r2
  { idx := row, isValid := ok1 && ok2 }

/-- validateHorizontalEquations of routes.ts. -/
def validateHorizontalEquations (grid : Grid) : List SStatus :=
  let gridSize := grid.length
  (evenIndicesBelow gridSize).filterMap (fun row =>
    match grid.get? row with
    | none => none
    | some cells =>
        if cells.length = 0 then none
        else if gridSize = 9 then some (serverDualHRow row cells)
        else serverSingleHRow row cells)

/-- Operand/operator extraction of the server 5x5/7x7 vertical branch:
values from the given even rows, the operator for each step from the odd
row directly below (skipped entirely when the value cell is missing). -/
def serverCollectCol (grid : Grid) (gridSize col : ℕ) : List ℕ → List ℚ × List CellValue
  | [] => ([], [])
  | r :: rest =>
      let p := serverCollectCol grid gridSize col rest
      match gcell grid r col with
      | none => p
      | some c =>
          let p1 :=
            if c.ctype = CellType.number ∨ c.ctype = CellType.input then
              (toNumberOr0 c.value :: p.1, p.2)
            else p
          if r + 1 < gridSize then
            match gcell grid (r + 1) col with
            | some oc =>
                if oc.ctype = CellType.operator ∧ oc.value ≠ CellValue.veq then
                  (p1.1, oc.value :: p1.2)
                else p1
            | none => p1
          else p1

/-- Server 5x5/7x7 vertical column status. -/
def serverSingleVCol (grid : Grid) (gridSize col : ℕ) : Option SStatus :=
  let vo := serverCollectCol grid gridSize col (evenIndicesBelow gridSize)
  if vo.1.length < 2 ∨ vo.2.length < 1 then none
  else
    some { idx := col,
           isValid := xNear (serverEvaluateEquation vo.1.dropLast vo.2) (vo.1.getLastD 0) }

/-- Server 9x9 vertical column status: values at rows 0,2,4,6,8 and
operators at rows 1 and 5. -/
def serverDualVCol (grid : Grid) (col : ℕ) : SStatus :=
  let v0 := toNumberOr0 (((gcell grid 0 col).map Cell.value).getD CellValue.empty)
  let v1 := toNumberOr0 (((gcell grid 2 col).map Cell.value).getD CellValue.empty)
  let r1 := toNumberOr0 (((gcell grid 4 col).map Cell.value).getD CellValue.empty)
  let v2 := toNumberOr0 (((gcell grid 6 col).map Cell.value).getD CellValue.empty)
  let r2 := toNumberOr0 (((gcell grid 8 col).map Cell.value).getD CellValue.empty)
  let op1 := serverOpOf ((gcell grid 1 col).map Cell.value)
  let op2 := serverOpOf ((gcell grid 5 col).map Cell.value)
  let ok1 := xNear (serverEvaluateEquation [v0, v1] [op1]) r1
  let ok2 := xNear (serverEvaluateEquation [r1, v2] [op2]) r2
  { idx := col, isValid := ok1 && ok2 }

/-- validateVerticalEquations of routes.ts (column bound is the first
row's length, `grid[0]?.length || 0`). -/
def validateVerticalEquations (grid : Grid) : List SStatus :=
  let gridSize := grid.length
  let colSize := ((grid.get? 0).map List.length).getD 0
  (evenIndicesBelow colSize).filterMap (fun col =>
    if gridSize = 9 then some (serverDualVCol grid col)
    else serverSingleVCol grid gridSize col)

/-- The response of the POST /api/validate-solution endpoint. -/
structure ValidateSolutionResult where
  isValid : Bool
  horizontalEquations : List SStatus
  verticalEquations : List SStatus
deriving DecidableEq, Repr

/-- The validate-solution endpoint of routes.ts: overall isValid is the
conjunction of every per-line validity flag. -/
def validateSolution (grid : Grid) : ValidateSolutionResult :=
  let h := validateHorizontalEquations grid
  let v := validateVerticalEquations grid
  { isValid := h.all (fun s => s.isValid) && v.all (fun s => s.isValid),
    horizontalEquations := h,
    verticalEquations := v }

/-- Substitute the solution's values into the player grid at every Input
cell (the round-trip construction of the spec's solvability property). -/
def mergeSolutionIntoGrid (grid solution : Grid) : Grid :=
  List.zipWith
    (fun grow srow =>
      List.zipWith
        (fun g s => if g.ctype = CellType.input then { g with value := s.value } else g)
        grow srow)
    grid solution

/-- Whether the i-th cell of a row is blank for completeness purposes
(the `cellValue === '' || undefined || null` test; a missing cell reads
as undefined and counts as blank). -/
def clientBlankAt (cells : List Cell) (i : ℕ) : Bool :=
  match cellValueAt cells i with
  | none => true
  | some CellValue.empty => true
  | some _ => false

/-- Same blank test addressed through the whole grid. -/
def clientBlankAtG (grid : Grid) (r c : ℕ) : Bool :=
  match (gcell grid r c).map Cell.value with
  | none => true
  | some CellValue.empty => true
  | some _ => false

/-- Client 5x5/7x7 horizontal extraction: iterates col < gridSize over
the row (missing cells skipped); operand cells contribute
parseFloat(toString || '0') || 0, operator cells other than '='
contribute toString || '+'. -/
def clientCollectRow (cells : List Cell) : List ℕ → List ℚ × List CellValue
  | [] => ([], [])
  | col :: rest =>
      let p := clientCollectRow cells rest
      match cells.get? col with
      | none => p
      | some c =>
          if c.ctype = CellType.number ∨ c.ctype = CellType.input then
            (toNumberOr0 c.value :: p.1, p.2)
          else if c.ctype = CellType.operator ∧ c.value ≠ CellValue.veq then
            (p.1, (if c.value = CellValue.empty then CellValue.vop Op.add else c.value)
              :: p.2)
          else p

/-- Client completeness for a horizontal line: every even column below
gridSize holds a non-blank cell. -/
def clientRowComplete (cells : List Cell) (gridSize : ℕ) : Bool :=
  (evenIndicesBelow gridSize).all (fun col => !(clientBlankAt cells col))

/-- Client 5x5/7x7 horizontal row status: produced when at least two
values were collected; isValid is the tolerance check AND isComplete. -/
def clientSingleHRow (gridSize row : ℕ) (cells : List Cell) : Option CStatus :=
  let vo := clientCollectRow cells (List.range gridSize)
  if 2 ≤ vo.1.length then
    let isComplete := clientRowComplete cells gridSize
    some { idx := row,
           isValid := xNear (clientEvaluateEquation vo.1.dropLast vo.2) (vo.1.getLastD 0)
             && isComplete,
           isComplete := isComplete }
  else none

/-- Client 9x9 horizontal row status: both mini-equations AND the
completeness of the five value columns 0, 2, 4, 6, 8. -/
def clientDualHRow (row : ℕ) (cells : List Cell) : CStatus :=
  let v0 := toNumberOr0 ((cellValueAt cells 0).getD CellValue.empty)
  let op1 := clientOpOf (cellValueAt cells 1)
  let v1 := toNumberOr0 ((cellValueAt cells 2).getD CellValue.empty)
  let r1 := toNumberOr0 ((cellValueAt cells 4).getD CellValue.empty)
  let op2 := clientOpOf (cellValueAt cells 5)
  let v2 := toNumberOr0 ((cellValueAt cells 6).getD CellValue.empty)
  let r2 := toNumberOr0 ((cellValueAt cells 8).getD CellValue.empty)
  let isComplete := [0, 2, 4, 6, 8].all (fun col => !(clientBlankAt cells col))
  let ok1 := xNear (clientEvaluateEquation [v0, v1] [op1]) r1
  let ok2 := xNear (clientEvaluateEquation [r1, v2] [op2]) r2
  { idx := row, isValid := ok1 && ok2 && isComplete, isComplete := isComplete }

/-- Client 5x5/7x7 vertical extraction: iterates every row (not just the
even ones) down the column. -/
def clientCollectCol (grid : Grid) (col : ℕ) : List ℕ → List ℚ × List CellValue
  | [] => ([], [])
  | r :: rest =>
      let p := clientCollectCol grid col rest
      match gcell grid r col with
      | none => p
      | some c =>
          if c.ctype = CellType.number ∨ c.ctype = CellType.input then
            (toNumberOr0 c.value :: p.1, p.2)
          else if c.ctype = CellType.operator ∧ c.value ≠ CellValue.veq then
            (p.1, (if c.value = CellValue.empty then CellValue.vop Op.add else c.value)
              :: p.2)
          else p

/-- Client completeness for a vertical line: every even row below
gridSize holds a non-blank cell in this column. -/
def clientColComplete (grid : Grid) (gridSize col : ℕ) : Bool :=
  (evenIndicesBelow gridSize).all (fun r => !(clientBlankAtG grid r col))

/-- Client 5x5/7x7 vertical column status. -/
def clientSingleVCol (grid : Grid) (gridSize col : ℕ) : Option CStatus :=
  let vo := clientCollectCol grid col (List.range gridSize)
  if 2 ≤ vo.1.length then
    let isComplete := clientColComplete grid gridSize col
    some { idx := col,
           isValid := xNear (clientEvaluateEquation vo.1.dropLast vo.2) (vo.1.getLastD 0)
             && isComplete,
           isComplete := isComplete }
  else none

/-- Client 9x9 vertical column status. -/
def clientDualVCol (grid : Grid) (gridSize col : ℕ) : CStatus :=
  let v0 := toNumberOr0 (((gcell grid 0 col).map Cell.value).getD CellValue.empty)
  let v1 := toNumberOr0 (((gcell grid 2 col).map Cell.value).getD CellValue.empty)
  let r1 := toNumberOr0 (((gcell grid 4 col).map Cell.value).getD CellValue.empty)
  let v2 := toNumberOr0 (((gcell grid 6 col).map Cell.value).getD CellValue.empty)
  let r2 := toNumberOr0 (((gcell grid 8 col).map Cell.value).getD CellValue.empty)
  let op1 := clientOpOf ((gcell grid 1 col).map Cell.value)
  let op2 := clientOpOf ((gcell grid 5 col).map Cell.value)
  let isComplete := clientColComplete grid gridSize col
  let ok1 := xNear (clientEvaluateEquation [v0, v1] [op1]) r1
  let ok2 := xNear (clientEvaluateEquation [r1, v2] [op2]) r2
  { idx := col, isValid := ok1 && ok2 && isComplete, isComplete := isComplete }

/-- getEquationStatus of the client hook: horizontal statuses for the
even rows, vertical statuses for the even columns (bounded by the row
count), with the dual layout exactly when the grid has 9 rows. -/
def getEquationStatus (grid : Grid) : List CStatus × List CStatus :=
  if grid.length = 0 then ([], [])
  else
    let gridSize := grid.length
    let horizontal := (evenIndicesBelow gridSize).filterMap (fun row =>
      match grid.get? row with
      | none => none
      | some cells =>
          if gridSize = 9 then some (clientDualHRow row cells)
          else clientSingleHRow gridSize row cells)
    let vertical := (evenIndicesBelow gridSize).filterMap (fun col =>
      if gridSize = 9 then some (clientDualVCol grid gridSize col)
      else clientSingleVCol grid gridSize col)
    (horizontal, vertical)

/-
Generator embedding (server/puzzleGenerator.ts).  Math.random() draws
are modelled by an explicit stream of naturals; each draw site consumes
the stream head d, reduced modulo the relevant range, and passes the
advanced stream on.  The imperative grid construction (initialise every
cell blocked, then overwrite the equation and operator cells in loops)
is expressed as one closed-form cell function per builder, computed for
each (row, col) of the final grid.
-/

/-- A stream of Math.random() draws. -/
abbrev Rng := ℕ → ℕ

/-- The stream after consuming one draw. -/
def rngTail (r : Rng) : Rng := fun n => r (n + 1)

/-- getRandomNumber: Math.floor(Math.random() * (max - min + 1)) + min. -/
def getRandomNumber (cfg : DifficultyConfig) (r : Rng) : ℚ × Rng :=
  (((cfg.minNumber + r 0 % (cfg.maxNumber - cfg.minNumber + 1) : ℕ) : ℚ), rngTail r)

/-- getRandomOperator: operators[Math.floor(Math.random() * length)]. -/
def getRandomOperator (cfg : DifficultyConfig) (r : Rng) : Op × Rng :=
  (cfg.operators.getD (r 0 % cfg.operators.length) Op.add, rngTail r)

/-- generateRandomHorizontalRow: draw v0, v1, op1, derive r1; on success
draw v2, op2, derive r2; null aborts (consuming no further draws). -/
def generateRandomHorizontalRow (cfg : DifficultyConfig) (r : Rng) :
    Option (List ℚ) × Rng :=
  let (v0, r1) := getRandomNumber cfg r
  let (v1, r2) := getRandomNumber cfg r1
  let (op1, r3) := getRandomOperator cfg r2
  match evaluateEquation v0 op1 v1 with
  | none => (none, r3)
  | some res1 =>
      let (v2, r4) := getRandomNumber cfg r3
      let (op2, r5) := getRandomOperator cfg r4
      match evaluateEquation res1 op2 v2 with
      | none => (none, r5)
      | some res2 => (some [v0, v1, res1, v2, res2], r5)

/-- One iteration of the per-column loop of
generateRow2FromVerticalConstraints / generateRow4FromVerticalConstraints:
draw an operator per column and combine rowA[col] op rowB[col]; a null
result breaks out (the partial row then fails the length-5 test). -/
def deriveRowCols (rowA rowB : List ℚ) (cfg : DifficultyConfig) :
    ℕ → ℕ → Rng → Option (List ℚ) × Rng
  | _, 0, r => (some [], r)
  | col, k + 1, r =>
      let (op, r1) := getRandomOperator cfg r
      match evaluateEquation (rowA.getD col 0) op (rowB.getD col 0) with
      | none => (none, r1)
      | some v =>
          match deriveRowCols rowA rowB cfg (col + 1) k r1 with
          | (none, r2) => (none, r2)
          | (some vs, r2) => (some (v :: vs), r2)

/-- Check if a row of 5 values can form two valid mini-equations with
SOME operator from the full set +, -, *, / (isValidHorizontalRow). -/
def isValidHorizontalRow (row : List ℚ) : Bool :=
  let v0 := row.getD 0 0
  let v1 := row.getD 1 0
  let r1 := row.getD 2 0
  let v2 := row.getD 3 0
  let r2 := row.getD 4 0
  ([Op.add, Op.sub, Op.mul, Op.div].any (fun op =>
    match evaluateEquation v0 op v1 with
    | some res => decide (qabs (qsub res r1) < mkRat 1 1000)
    | none => false)) &&
  ([Op.add, Op.sub, Op.mul, Op.div].any (fun op =>
    match evaluateEquation r1 op v2 with
    | some res => decide (qabs (qsub res r2) < mkRat 1 1000)
    | none => false))

/-- The 50-attempt loop shared by generateRow2FromVerticalConstraints
and generateRow4FromVerticalConstraints: derive a candidate row from the
vertical constraints and accept it when all 5 columns succeeded and it
can itself support a horizontal dual equation. -/
def generateRowFromVerticalConstraints (rowA rowB : List ℚ) (cfg : DifficultyConfig) :
    ℕ → Rng → Option (List ℚ) × Rng
  | 0, r => (none, r)
  | i + 1, r =>
      match deriveRowCols rowA rowB cfg 0 5 r with
      | (some vs, r1) =>
          if vs.length = 5 ∧ isValidHorizontalRow vs then (some vs, r1)
          else generateRowFromVerticalConstraints rowA rowB cfg i r1
      | (none, r1) => generateRowFromVerticalConstraints rowA rowB cfg i r1

/-- findOperator: the first operator of config.operators with
a op b === result (an exact comparison; a null evaluation never
matches). -/
def findOperator (a b res : ℚ) (cfg : DifficultyConfig) : Option Op :=
  cfg.operators.find? (fun op => decide (evaluateEquation a op b = some res))

/-- The value-grid attempt bound of generateDualEquationValueGrid. -/
def valueGridMaxAttempts : ℕ := 200

/-- The attempt loop of generateDualEquationValueGrid: rows 0, 1 and 3
are free draws, rows 2 and 4 are derived from the vertical constraints;
any failure retries the whole construction. -/
def generateDualEquationValueGridGo (cfg : DifficultyConfig) :
    ℕ → Rng → Option (List (List ℚ)) × Rng
  | 0, r => (none, r)
  | k + 1, r =>
      match generateRandomHorizontalRow cfg r with
      | (none, r1) => generateDualEquationValueGridGo cfg k r1
      | (some row0, r1) =>
          match generateRandomHorizontalRow cfg r1 with
          | (none, r2) => generateDualEquationValueGridGo cfg k r2
          | (some row1, r2) =>
              match generateRowFromVerticalConstraints row0 row1 cfg 50 r2 with
              | (none, r3) => generateDualEquationValueGridGo cfg k r3
              | (some row2, r3) =>
                  match generateRandomHorizontalRow cfg r3 with
                  | (none, r4) => generateDualEquationValueGridGo cfg k r4
                  | (some row3, r4) =>
                      match generateRowFromVerticalConstraints row2 row3 cfg 50 r4 with
                      | (none, r5) => generateDualEquationValueGridGo cfg k r5
                      | (some row4, r5) => (some [row0, row1, row2, row3, row4], r5)

/-- generateDualEquationValueGrid: 200 bounded attempts. -/
def generateDualEquationValueGrid (cfg : DifficultyConfig) (r : Rng) :
    Option (List (List ℚ)) × Rng :=
  generateDualEquationValueGridGo cfg valueGridMaxAttempts r

/-- An Input cell: blank in the player grid, the solution value in the
solution grid, editable in both. -/
def inputPair (solV : ℚ) (row col : ℕ) : Cell × Cell :=
  ({ ctype := CellType.input, value := CellValue.empty, isEditable := true,
     row := row, col := col },
   { ctype := CellType.input, value := CellValue.num solV, isEditable := true,
     row := row, col := col })

/-- A given Number cell: the same value in both grids, not editable. -/
def numberPair (v : ℚ) (row col : ℕ) : Cell × Cell :=
  ({ ctype := CellType.number, value := CellValue.num v, isEditable := false,
     row := row, col := col },
   { ctype := CellType.number, value := CellValue.num v, isEditable := false,
     row := row, col := col })

/-- An operator cell, identical in both grids. -/
def operatorPair (o : Op) (row col : ℕ) : Cell × Cell :=
  ({ ctype := CellType.operator, value := CellValue.vop o, isEditable := false,
     row := row, col := col },
   { ctype := CellType.operator, value := CellValue.vop o, isEditable := false,
     row := row, col := col })

/-- An equals-sign cell, identical in both grids. -/
def equalsPair (row col : ℕ) : Cell × Cell :=
  ({ ctype := CellType.operator, value := CellValue.veq, isEditable := false,
     row := row, col := col },
   { ctype := CellType.operator, value := CellValue.veq, isEditable := false,
     row := row, col := col })

/-- A blocked filler cell, identical in both grids. -/
def blockedPair (row col : ℕ) : Cell × Cell :=
  ({ ctype := CellType.blocked, value := CellValue.empty, isEditable := false,
     row := row, col := col },
   { ctype := CellType.blocked, value := CellValue.empty, isEditable := false,
     row := row, col := col })

/-- A value position: a given Number cell or an editable Input cell. -/
def valueCellPair (isGiven : Bool) (v : ℚ) (row col : ℕ) : Cell × Cell :=
  if isGiven then numberPair v row col else inputPair v row col

/-- Build the player grid and the solution grid from one per-cell pair
function over an n x n board. -/
def mkGridsAux (n : ℕ) (f : ℕ → ℕ → Cell × Cell) : Puzzle :=
  { grid := (List.range n).map (fun row => (List.range n).map (fun col => (f row col).1)),
    solution :=
      (List.range n).map (fun row => (List.range n).map (fun col => (f row col).2)) }

/-- The 9x9 given-number pattern over (equation row index, value
index). -/
def isGivenNumber9 (eqRowIdx valueIdx : ℕ) : Bool :=
  decide ((eqRowIdx = 0 ∧ (valueIdx = 1 ∨ valueIdx = 3)) ∨
    (eqRowIdx = 1 ∧ valueIdx = 4) ∨
    (eqRowIdx = 2 ∧ (valueIdx = 0 ∨ valueIdx = 2 ∨ valueIdx = 4)) ∨
    (eqRowIdx = 3 ∧ (valueIdx = 0 ∨ valueIdx = 3)) ∨
    (eqRowIdx = 4 ∧ valueIdx = 1))

/-- Per-cell layout of buildDualEquationGridsFromValues: even rows hold
v0 op1 v1 = r1 op2 v2 = r2; odd rows 1 and 5 hold the vertical
operators, 3 and 7 the vertical equals signs, with odd columns
blocked. -/
def build9CellPair (valueGrid : List (List ℚ)) (hOps vOps : List (List Op))
    (row col : ℕ) : Cell × Cell :=
  if row % 2 = 0 then
    let eqIdx := row / 2
    if col % 2 = 0 then
      let vIdx := col / 2
      valueCellPair (isGivenNumber9 eqIdx vIdx) ((valueGrid.getD eqIdx []).getD vIdx 0)
        row col
    else if col = 3 ∨ col = 7 then equalsPair row col
    else if col = 1 then operatorPair ((hOps.getD eqIdx []).getD 0 Op.add) row col
    else if col = 5 then operatorPair ((hOps.getD eqIdx []).getD 1 Op.add) row col
    else blockedPair row col
  else
    if col % 2 = 0 then
      let colIdx := col / 2
      if row = 1 then operatorPair ((vOps.getD colIdx []).getD 0 Op.add) row col
      else if row = 5 then operatorPair ((vOps.getD colIdx []).getD 1 Op.add) row col
      else equalsPair row col
    else blockedPair row col

/-- buildDualEquationGridsFromValues: recompute the horizontal operators
per value-grid row and the vertical operators per value-grid column with
findOperator (falling back to '+' when the search fails), then expand
into the 9x9 layout. -/
def buildDualEquationGridsFromValues (valueGrid : List (List ℚ))
    (cfg : DifficultyConfig) : Puzzle :=
  let hOps := (List.range 5).map (fun row =>
    let v0 := (valueGrid.getD row []).getD 0 0
    let v1 := (valueGrid.getD row []).getD 1 0
    let r1 := (valueGrid.getD row []).getD 2 0
    let v2 := (valueGrid.getD row []).getD 3 0
    let r2 := (valueGrid.getD row []).getD 4 0
    [(findOperator v0 v1 r1 cfg).getD Op.add, (findOperator r1 v2 r2 cfg).getD Op.add])
  let vOps := (List.range 5).map (fun col =>
    let v0 := (valueGrid.getD 0 []).getD col 0
    let v1 := (valueGrid.getD 1 []).getD col 0
    let r1 := (valueGrid.getD 2 []).getD col 0
    let v2 := (valueGrid.getD 3 []).getD col 0
    let r2 := (valueGrid.getD 4 []).getD col 0
    [(findOperator v0 v1 r1 cfg).getD Op.add, (findOperator r1 v2 r2 cfg).getD Op.add])
  mkGridsAux 9 (build9CellPair valueGrid hOps vOps)

/-- The simplified configuration the 9x9 path uses (attemptPuzzleGeneration9x9):
capped range and '+'/'-' operators only. -/
def simpleConfig9 (cfg : DifficultyConfig) : DifficultyConfig :=
  { cfg with
    maxNumber := min 50 cfg.maxNumber
    operators := [Op.add, Op.sub]
    allowNegativeResults := true }

/-- attemptPuzzleGeneration9x9: generate a 5x5 value grid, then build
the 9x9 cell grids from it. -/
def attemptPuzzleGeneration9x9 (cfg : DifficultyConfig) (r : Rng) :
    Option Puzzle × Rng :=
  let sc := simpleConfig9 cfg
  match generateDualEquationValueGrid sc r with
  | (none, r1) => (none, r1)
  | (some vg, r1) => (some (buildDualEquationGridsFromValues vg sc), r1)

/-- The draw loop for a first/last row of the small-grid generator:
numValues - 1 operand draws interleaved with numValues - 2 operator
draws. -/
def genEdgeRowGo (cfg : DifficultyConfig) : ℕ → Rng → (List ℚ × List Op) × Rng
  | 0, r => (([], []), r)
  | 1, r =>
      let (v, r1) := getRandomNumber cfg r
      (([v], []), r1)
  | k + 2, r =>
      let (v, r1) := getRandomNumber cfg r
      let (o, r2) := getRandomOperator cfg r1
      let (p, r3) := genEdgeRowGo cfg (k + 1) r2
      ((v :: p.1, o :: p.2), r3)

/-- Draw a first/last row and close it with its evaluated result; a null
evaluation fails the whole attempt. -/
def genEdgeRow (cfg : DifficultyConfig) (numValues : ℕ) (r : Rng) :
    Option (List ℚ × List Op) × Rng :=
  let (p, r1) := genEdgeRowGo cfg (numValues - 1) r
  match evaluateFullEquation p.1 p.2 with
  | none => (none, r1)
  | some res => (some (p.1 ++ [res], p.2), r1)

/-- The per-column vertical construction of the small-grid generator:
intermediate steps draw '+' or '-' and step by
max(1, min(maxNumber, |floor(diff / remaining)|)); the final step uses
the exact difference when its magnitude is at most maxNumber * 2 for
either '+' or '-' (the magnitude is the same for both, so one test
decides), and otherwise keeps the initialisation
bestOp = '+', bestVal = currentVal + (bottomVal - currentVal) = bottomVal,
which does NOT connect the column to its bottom value. -/
def buildColumnGo (cfg : DifficultyConfig) (bottomVal : ℚ) :
    ℚ → ℕ → Rng → (List ℚ × List Op) × Rng
  | _, 0, r => (([], []), r)
  | currentVal, 1, r =>
      let cand := qsub bottomVal currentVal
      let p :=
        if qabs cand ≤ ((cfg.maxNumber * 2 : ℕ) : ℚ) then (Op.add, cand)
        else (Op.add, bottomVal)
      (([p.2], [p.1]), r)
  | currentVal, k + 2, r =>
      let diff := qsub bottomVal currentVal
      let stepSize := qfloor (qdiv diff (((k + 2 : ℕ) : ℚ)))
      let op := if r 0 % 2 = 0 then Op.add else Op.sub
      let nextVal : ℚ := ((max 1 (min (cfg.maxNumber : ℤ) |stepSize|) : ℤ) : ℚ)
      let newCurrent :=
        if op = Op.add then qadd currentVal nextVal else qsub currentVal nextVal
      let (p, r2) := buildColumnGo cfg bottomVal newCurrent (k + 1) (rngTail r)
      ((nextVal :: p.1, op :: p.2), r2)

/-- Run the vertical construction for every column (top, bottom) pair in
order, threading the draw stream. -/
def buildColumnsGo (cfg : DifficultyConfig) (numOpsCol : ℕ) :
    List (ℚ × ℚ) → Rng → List (List ℚ × List Op) × Rng
  | [], r => ([], r)
  | tb :: rest, r =>
      let (c, r1) := buildColumnGo cfg tb.2 tb.1 numOpsCol r
      let (cs, r2) := buildColumnsGo cfg numOpsCol rest r1
      (c :: cs, r2)

/-- The recursive operator search for a middle row (findOperators inside
attemptPuzzleGeneration): depth-first over config.operators, accepting
an assignment whose evaluation equals the row's final value exactly. -/
def findOperatorsSearch (cfg : DifficultyConfig) (operands : List ℚ) (target : ℚ) :
    ℕ → List Op → Option (List Op)
  | 0, opsSoFar =>
      if evaluateFullEquation operands opsSoFar = some target then some opsSoFar else none
  | k + 1, opsSoFar =>
      cfg.operators.findSome? (fun op =>
        findOperatorsSearch cfg operands target k (opsSoFar ++ [op]))

/-- Operator search for one middle row of numValues values. -/
def solveMiddleRowOps (cfg : DifficultyConfig) (numValues : ℕ)
    (rowValues : List ℚ) : Option (List Op) :=
  findOperatorsSearch cfg rowValues.dropLast (rowValues.getD (numValues - 1) 0)
    (numValues - 2) []

/-- Operator search for all middle rows; any failure fails the attempt. -/
def solveMiddleRows (cfg : DifficultyConfig) (numValues : ℕ) :
    List (List ℚ) → Option (List (List ℚ × List Op))
  | [] => some []
  | v :: rest =>
      match solveMiddleRowOps cfg numValues v with
      | none => none
      | some ops =>
          match solveMiddleRows cfg numValues rest with
          | none => none
          | some tl => some ((v, ops) :: tl)

/-- The small-grid given-number pattern (inline in
attemptPuzzleGeneration), keyed by grid size. -/
def isGivenSmall (size numEqRows numValues eqIdx i : ℕ) : Bool :=
  if size = 5 then
    decide ((eqIdx = 0 ∧ i = 0) ∨ (eqIdx = numEqRows - 1 ∧ i = numValues - 1))
  else if size = 7 then
    decide ((eqIdx = 0 ∧ i = 0) ∨ (eqIdx = 0 ∧ i = numValues - 1) ∨
      (eqIdx = numEqRows / 2 ∧ i = numValues / 2) ∨
      (eqIdx = numEqRows - 1 ∧ i = numValues - 1))
  else if size = 9 then isGivenNumber9 eqIdx i
  else false

/-- Per-cell layout of the small-grid builder: even rows interleave
value cells with operators (an equals sign before the result), odd rows
carry the vertical operators on even columns (the last odd row carries
equals signs), odd columns of odd rows are blocked. -/
def smallCellPair (size numEqRows numValues : ℕ) (allRows : List (List ℚ × List Op))
    (verticalOps : List (List Op)) (vOps : List Op) (row col : ℕ) : Cell × Cell :=
  if row % 2 = 0 then
    if col % 2 = 0 ∧ col / 2 < numValues ∧ row / 2 < numEqRows then
      valueCellPair (isGivenSmall size numEqRows numValues (row / 2) (col / 2))
        ((allRows.getD (row / 2) ([], [])).1.getD (col / 2) 0) row col
    else if col % 2 = 1 ∧ (col - 1) / 2 < numValues - 1 ∧ row / 2 < numEqRows then
      if (col - 1) / 2 < numValues - 2 then
        operatorPair ((allRows.getD (row / 2) ([], [])).2.getD ((col - 1) / 2) Op.add)
          row col
      else equalsPair row col
    else blockedPair row col
  else
    if col % 2 = 0 ∧ col / 2 < numValues then
      if row = size - 2 then equalsPair row col
      else
        operatorPair
          ((verticalOps.getD (col / 2) []).getD (row / 2) (vOps.getD (col / 2) Op.add))
          row col
    else blockedPair row col

/-- attemptPuzzleGeneration (5x5 and 7x7): draw the first and last
equation rows, derive every column's intermediate values, search
horizontal operators for each middle row, and build the grids. -/
def attemptPuzzleGeneration (cfg : DifficultyConfig) (r : Rng) :
    Option Puzzle × Rng :=
  let size := cfg.gridSize
  let numEqRows := size / 2 + 1
  let numValues := numEqRows
  match genEdgeRow cfg numValues r with
  | (none, r1) => (none, r1)
  | (some firstRow, r1) =>
      match genEdgeRow cfg numValues r1 with
      | (none, r2) => (none, r2)
      | (some lastRow, r2) =>
          let numOpsCol := numEqRows - 2
          let (cols, r3) := buildColumnsGo cfg numOpsCol (firstRow.1.zip lastRow.1) r2
          let middleVals := (List.range numOpsCol).map (fun m =>
            cols.map (fun c => c.1.getD m 0))
          match solveMiddleRows cfg numValues middleVals with
          | none => (none, r3)
          | some middles =>
              let allRows := firstRow :: middles ++ [lastRow]
              let verticalOps := cols.map (fun c => c.2)
              let vOps := verticalOps.map (fun ops => ops.getD 0 Op.add)
              (some (mkGridsAux size
                (smallCellPair size numEqRows numValues allRows verticalOps vOps)), r3)

/-- The hard-coded fallback pattern: 5+3=8, 2+1=3, 7+2=9 with '+'
operator rows and a final '=' row; input cells carry their solution
value only in the solution grid. -/
def fallbackPatternPair (row col : ℕ) : Cell × Cell :=
  match row, col with
  | 0, 0 => numberPair 5 0 0
  | 0, 1 => operatorPair Op.add 0 1
  | 0, 2 => inputPair 3 0 2
  | 0, 3 => equalsPair 0 3
  | 0, 4 => inputPair 8 0 4
  | 1, 0 => operatorPair Op.add 1 0
  | 1, 1 => blockedPair 1 1
  | 1, 2 => operatorPair Op.add 1 2
  | 1, 3 => blockedPair 1 3
  | 1, 4 => operatorPair Op.add 1 4
  | 2, 0 => inputPair 2 2 0
  | 2, 1 => operatorPair Op.add 2 1
  | 2, 2 => numberPair 1 2 2
  | 2, 3 => equalsPair 2 3
  | 2, 4 => inputPair 3 2 4
  | 3, 0 => equalsPair 3 0
  | 3, 1 => blockedPair 3 1
  | 3, 2 => equalsPair 3 2
  | 3, 3 => blockedPair 3 3
  | 3, 4 => equalsPair 3 4
  | 4, 0 => numberPair 7 4 0
  | 4, 1 => operatorPair Op.add 4 1
  | 4, 2 => inputPair 2 4 2
  | 4, 3 => equalsPair 4 3
  | 4, 4 => numberPair 9 4 4
  | r, c => blockedPair r c

/-- generateFallbackPuzzle: the fixed 5x5 pattern in the top-left
corner of a gridSize x gridSize board, everything else blocked. -/
def generateFallbackPuzzle (cfg : DifficultyConfig) : Puzzle :=
  mkGridsAux cfg.gridSize (fun row col =>
    if row < 5 ∧ col < 5 then fallbackPatternPair row col else blockedPair row col)

/-- The 9x9 adjustment in generatePuzzle: smaller numbers and
'+','-','*' operators. -/
def adjustedConfig (cfg : DifficultyConfig) : DifficultyConfig :=
  if cfg.gridSize = 9 then
    { cfg with maxNumber := 10, operators := [Op.add, Op.sub, Op.mul] }
  else cfg

/-- The attempt budget: 1000 for 9x9, 300 for 7x7, 100 otherwise. -/
def maxAttemptsFor (cfg : DifficultyConfig) : ℕ :=
  if cfg.gridSize = 9 then 1000 else if cfg.gridSize = 7 then 300 else 100

/-- One generation attempt, dispatched on the grid size. -/
def attemptFor (cfg : DifficultyConfig) (r : Rng) : Option Puzzle × Rng :=
  if cfg.gridSize = 9 then attemptPuzzleGeneration9x9 cfg r
  else attemptPuzzleGeneration cfg r

/-- The bounded retry loop of generatePuzzle: the first successful
attempt's puzzle, or the fallback once the budget is exhausted.  (In the
source a thrown exception inside an attempt is caught and counts as a
failed attempt; attempts in this model are total and signal failure by
none.) -/
def generatePuzzleLoop (cfg : DifficultyConfig) : ℕ → Rng → Puzzle
  | 0, _ => generateFallbackPuzzle cfg
  | n + 1, r =>
      match attemptFor cfg r with
      | (some p, _) => p
      | (none, r1) => generatePuzzleLoop cfg n r1

/-- generatePuzzle: adjust the difficulty's configuration, run the
bounded attempt loop, fall back when it exhausts. -/
def generatePuzzle (d : Difficulty) (r : Rng) : Puzzle :=
  let cfg := adjustedConfig (configFor d)
  generatePuzzleLoop cfg (maxAttemptsFor cfg) r

/-
Concrete inputs used by the claim theorems below.
-/

/-- A draw stream listing its first elements, 0 afterwards. -/
def streamOf (l : List ℕ) : Rng := fun n => l.getD n 0

/-- Draws making the easy generator produce first row 10 + 10 = 20 and
last row 1 - 10 = -9 on its first attempt: the column over the results
has top 20 and bottom -9, whose distance 29 exceeds maxNumber * 2 = 20,
so the final vertical step keeps its initialisation and the middle cell
becomes -9 with a '+' operator above it (20 + -9 = -9 is false). -/
def c1Stream : Rng := streamOf [9, 0, 9, 0, 1, 9]

/-- Draws making the 9x9 value-grid construction accept
[[3,5,8,1,9], [1,1,0,1,1], [2,4,8,2,10], [1,1,2,1,3], [3,3,6,1,7]] on
its first attempt.  Row 2 passes isValidHorizontalRow only through
2 * 4 = 8, an operator outside the '+','-' set that findOperator
searches. -/
def c4Stream : Rng := streamOf [2, 4, 0, 0, 0, 0, 0, 1, 0, 0, 1, 1, 0, 0, 0, 0, 0, 0, 0, 0, 0, 1, 1, 1, 1]

/-- The value grid accepted under c4Stream. -/
def c4ValueGrid : List (List ℚ) :=
  [[3, 5, 8, 1, 9], [1, 1, 0, 1, 1], [2, 4, 8, 2, 10], [1, 1, 2, 1, 3], [3, 3, 6, 1, 7]]

/-- The configuration the 9x9 build path actually runs with. -/
def hard9SimpleConfig : DifficultyConfig := simpleConfig9 (adjustedConfig hardConfig)

/-- The all-zero draw stream (easy generation succeeds immediately with
the all-trivial puzzle 1 + 1 = 2 rows). -/
def zeroStream : Rng := streamOf []

/-- A full 5x5 grid whose (0,0) Input cell is blank while every line's
zero-substituted arithmetic holds: row 0 reads (blank) + 5 = 5 and the
blank parses to 0. -/
def blankOkGrid : Grid :=
  [[⟨CellType.input, CellValue.empty, true, 0, 0⟩,
    ⟨CellType.operator, CellValue.vop Op.add, false, 0, 1⟩,
    ⟨CellType.number, CellValue.num 5, false, 0, 2⟩,
    ⟨CellType.operator, CellValue.veq, false, 0, 3⟩,
    ⟨CellType.number, CellValue.num 5, false, 0, 4⟩],
   [⟨CellType.operator, CellValue.vop Op.add, false, 1, 0⟩,
    ⟨CellType.blocked, CellValue.empty, false, 1, 1⟩,
    ⟨CellType.operator, CellValue.vop Op.add, false, 1, 2⟩,
    ⟨CellType.blocked, CellValue.empty, false, 1, 3⟩,
    ⟨CellType.operator, CellValue.vop Op.add, false, 1, 4⟩],
   [⟨CellType.number, CellValue.num 2, false, 2, 0⟩,
    ⟨CellType.operator, CellValue.vop Op.add, false, 2, 1⟩,
    ⟨CellType.number, CellValue.num 1, false, 2, 2⟩,
    ⟨CellType.operator, CellValue.veq, false, 2, 3⟩,
    ⟨CellType.number, CellValue.num 3, false, 2, 4⟩],
   [⟨CellType.operator, CellValue.veq, false, 3, 0⟩,
    ⟨CellType.blocked, CellValue.empty, false, 3, 1⟩,
    ⟨CellType.operator, CellValue.veq, false, 3, 2⟩,
    ⟨CellType.blocked, CellValue.empty, false, 3, 3⟩,
    ⟨CellType.operator, CellValue.veq, false, 3, 4⟩],
   [⟨CellType.number, CellValue.num 2, false, 4, 0⟩,
    ⟨CellType.operator, CellValue.vop Op.add, false, 4, 1⟩,
    ⟨CellType.number, CellValue.num 6, false, 4, 2⟩,
    ⟨CellType.operator, CellValue.veq, false, 4, 3⟩,
    ⟨CellType.number, CellValue.num 8, false, 4, 4⟩]]

/-- C1: round-trip solvability fails on the code.  Under c1Stream the
easy generator's first attempt succeeds (the returned puzzle is that
attempt's output, not the fallback), yet substituting the solution's
Input values into the player grid and running the validate-solution
logic yields isValid = false: the vertical equation of column 4 reads
20 + (-9) = -9. -/
theorem c1_roundtrip_fails :
    (attemptPuzzleGeneration easyConfig c1Stream).1
        = some (generatePuzzle Difficulty.easy c1Stream) ∧
    (validateSolution (mergeSolutionIntoGrid
        (generatePuzzle Difficulty.easy c1Stream).grid
        (generatePuzzle Difficulty.easy c1Stream).solution)).isValid = false ∧
    (validateSolution (mergeSolutionIntoGrid
        (generatePuzzle Difficulty.easy c1Stream).grid
        (generatePuzzle Difficulty.easy c1Stream).solution)).verticalEquations
        = [⟨0, true⟩, ⟨2, true⟩, ⟨4, false⟩] := by
  refine ⟨?_, ?_, ?_⟩ <;> decide

/-- C4: the operator-recomputation search is over config.operators,
which on the 9x9 path is ['+','-'] (hard9SimpleConfig), not the full
'+','-','*','/' set; the value grid c4ValueGrid is accepted by
generateDualEquationValueGrid (its row 2 = [2,4,8,2,10] passes
isValidHorizontalRow only through 2 * 4 = 8) yet findOperator 2 4 8
fails, the default '+' fallback is taken in the built grid (solution
cell (4,1) holds '+' although 2 + 4 = 6 is not 8), and the resulting
puzzle fails its own validation. -/
theorem c4_operator_search_fails :
    hard9SimpleConfig.operators = [Op.add, Op.sub] ∧
    (generateDualEquationValueGrid hard9SimpleConfig c4Stream).1 = some c4ValueGrid ∧
    isValidHorizontalRow [2, 4, 8, 2, 10] = true ∧
    findOperator 2 4 8 hard9SimpleConfig = none ∧
    gcell (buildDualEquationGridsFromValues c4ValueGrid hard9SimpleConfig).solution 4 1
        = some ⟨CellType.operator, CellValue.vop Op.add, false, 4, 1⟩ ∧
    evaluateEquation 2 Op.add 4 = some 6 ∧
    generatePuzzle Difficulty.hard c4Stream
        = buildDualEquationGridsFromValues c4ValueGrid hard9SimpleConfig ∧
    (validateSolution (mergeSolutionIntoGrid
        (generatePuzzle Difficulty.hard c4Stream).grid
        (generatePuzzle Difficulty.hard c4Stream).solution)).isValid = false := by
  refine ⟨?_, ?_, ?_, ?_, ?_, ?_, ?_, ?_⟩ <;> decide

/-- C6: the fixed fallback puzzle does not satisfy round-trip
solvability: its three horizontal equations hold, but the vertical
equations at columns 2 and 4 read 3 + 1 = 2 and 8 + 3 = 9, so
validateSolution on the merged fallback reports isValid = false. -/
theorem c6_fallback_fails_roundtrip :
    (validateSolution (mergeSolutionIntoGrid
        (generateFallbackPuzzle easyConfig).grid
        (generateFallbackPuzzle easyConfig).solution)).isValid = false ∧
    (validateSolution (mergeSolutionIntoGrid
        (generateFallbackPuzzle easyConfig).grid
        (generateFallbackPuzzle easyConfig).solution)).horizontalEquations
        = [⟨0, true⟩, ⟨2, true⟩, ⟨4, true⟩] ∧
    (validateSolution (mergeSolutionIntoGrid
        (generateFallbackPuzzle easyConfig).grid
        (generateFallbackPuzzle easyConfig).solution)).verticalEquations
        = [⟨0, true⟩, ⟨2, false⟩, ⟨4, false⟩] := by
  refine ⟨?_, ?_, ?_⟩ <;> decide

/-- C3 (counterexample): a grid whose row 0 has a blank Input operand
cell is judged isValid = true by the server validateSolution logic, and
its statuses carry no completeness information at all: blanks evaluate
as 0 and 0 + 5 = 5 holds. -/
theorem c3_server_no_completeness_gating :
    gcell blankOkGrid 0 0 = some ⟨CellType.input, CellValue.empty, true, 0, 0⟩ ∧
    (validateSolution blankOkGrid).isValid = true := by
  refine ⟨?_, ?_⟩ <;> decide

/-- C8 (counterexample): every generated puzzle contains blocked cells
whose value is the empty string while isEditable is false, refuting the
claim that every non-editable cell carries a non-empty value; shown on
the puzzle generated for easy under the all-zero stream (produced by a
successful attempt, not the fallback). -/
theorem c8_blocked_cells_are_empty :
    gcell (generatePuzzle Difficulty.easy zeroStream).grid 1 1
        = some ⟨CellType.blocked, CellValue.empty, false, 1, 1⟩ ∧
    (attemptPuzzleGeneration easyConfig zeroStream).1
        = some (generatePuzzle Difficulty.easy zeroStream) := by
  refine ⟨?_, ?_⟩ <;> decide

/-- C2: the shared evaluator implements the spec's precedence algorithm
(leftmost mul/div collapse until none remain, then a strict left-to-right
add/sub fold), with the claimed concrete values: [2,3,4] with ['+','*']
gives 14, [10,2,3] with ['/','+'] gives 8, [6,0] with ['/'] fails, and a
single operand with no operators is returned unchanged. -/
theorem c2_evaluator_precedence :
    (∀ (values : List ℚ) (operators : List Op),
        values.length = operators.length + 1 →
        evaluateFullEquation values operators = specEvaluate values operators) ∧
    evaluateFullEquation [2, 3, 4] [Op.add, Op.mul] = some 14 ∧
    evaluateFullEquation [10, 2, 3] [Op.div, Op.add] = some 8 ∧
    evaluateFullEquation [6, 0] [Op.div] = none ∧
    (∀ v : ℚ, evaluateFullEquation [v] [] = some v) :=
  ⟨evaluateFullEquation_eq_specEvaluate, by decide, by decide, by decide, fun _ => rfl⟩

/-- C2 witness: the refinement instantiated at [2,3,4], ['+','*']. -/
theorem c2_evaluator_precedence_witness :
    evaluateFullEquation [2, 3, 4] [Op.add, Op.mul]
      = specEvaluate [2, 3, 4] [Op.add, Op.mul] :=
  c2_evaluator_precedence.1 [2, 3, 4] [Op.add, Op.mul] (by decide)

/-- The generation loop either returns some attempt's successful output
or, once the budget is exhausted, the fallback puzzle. -/
theorem generatePuzzleLoop_cases (cfg : DifficultyConfig) :
    ∀ (n : ℕ) (r : Rng),
      (∃ r', (attemptFor cfg r').1 = some (generatePuzzleLoop cfg n r)) ∨
      generatePuzzleLoop cfg n r = generateFallbackPuzzle cfg := by
  intro n
  induction n with
  | zero => intro r; exact Or.inr rfl
  | succ n ih =>
      intro r
      cases ha : attemptFor cfg r with
      | mk o r1 =>
          cases o with
          | some p =>
              left
              exact ⟨r, by simp [generatePuzzleLoop, ha]⟩
          | none =>
              have : generatePuzzleLoop cfg (n + 1) r = generatePuzzleLoop cfg n r1 := by
                simp [generatePuzzleLoop, ha]
              rw [this]
              exact ih r1

/-- C5: generatePuzzle always returns a puzzle: it is either the output
of a successful attempt or, when the bounded budget is exhausted, the
fixed fallback; the budgets are 100 (size 5), 300 (size 7), 1000
(size 9), and each 9x9 attempt runs at most 200 value-grid tries. -/
theorem c5_bounded_generation :
    (∀ (d : Difficulty) (r : Rng),
        (∃ r', (attemptFor (adjustedConfig (configFor d)) r').1
            = some (generatePuzzle d r)) ∨
        generatePuzzle d r = generateFallbackPuzzle (adjustedConfig (configFor d))) ∧
    maxAttemptsFor (adjustedConfig (configFor Difficulty.easy)) = 100 ∧
    maxAttemptsFor (adjustedConfig (configFor Difficulty.medium)) = 300 ∧
    maxAttemptsFor (adjustedConfig (configFor Difficulty.hard)) = 1000 ∧
    valueGridMaxAttempts = 200 ∧
    (∀ (cfg : DifficultyConfig) (r : Rng),
        generateDualEquationValueGrid cfg r
          = generateDualEquationValueGridGo cfg valueGridMaxAttempts r) ∧
    (∀ (d : Difficulty) (r : Rng),
        generatePuzzle d r
          = generatePuzzleLoop (adjustedConfig (configFor d))
              (maxAttemptsFor (adjustedConfig (configFor d))) r) ∧
    (∀ (cfg : DifficultyConfig) (r : Rng),
        generatePuzzleLoop cfg 0 r = generateFallbackPuzzle cfg) :=
  ⟨fun d r => generatePuzzleLoop_cases _ _ r, by decide, by decide, by decide, rfl,
    fun _ _ => rfl, fun _ _ => rfl, fun _ _ => rfl⟩

/-- C7: division semantics.  In the generator's evaluator division by
zero fails and a non-integer quotient fails (and an integer quotient
succeeds with the exact value); in the validator's evaluator division by
zero never produces a (finite) number, a nonzero divisor divides
exactly, and no integrality constraint applies — 10 / 4 evaluates to 2.5
and matches a stated 2.5 within the 0.001 tolerance, while the same
division is rejected by the generator. -/
theorem c7_division_semantics :
    (∀ a : ℚ, evaluateEquation a Op.div 0 = none) ∧
    (∀ a q : ℚ, xdiv (XQ.fin a) (XQ.fin 0) ≠ XQ.fin q) ∧
    (∀ a b : ℚ, b ≠ 0 → (a / b).den ≠ 1 → evaluateEquation a Op.div b = none) ∧
    (∀ a b : ℚ, b ≠ 0 → (a / b).den = 1 → evaluateEquation a Op.div b = some (a / b)) ∧
    (∀ a b : ℚ, b ≠ 0 →
        serverEvaluateEquation [a, b] [CellValue.vop Op.div] = XQ.fin (a / b)) ∧
    serverEvaluateEquation [10, 4] [CellValue.vop Op.div] = XQ.fin (5 / 2) ∧
    xNear (serverEvaluateEquation [10, 4] [CellValue.vop Op.div]) (5 / 2) = true ∧
    evaluateEquation 10 Op.div 4 = none := by
  have h52 : (5 / 2 : ℚ) = mkRat 5 2 := by
    rw [Rat.mkRat_eq_div]; norm_num
  refine ⟨?_, ?_, ?_, ?_, ?_, ?_, ?_, by decide⟩
  · intro a; simp [evaluateEquation]
  · intro a q
    simp only [xdiv, if_pos rfl]
    split_ifs <;> simp
  · intro a b hb hden
    simp [evaluateEquation, hb, qdiv_eq, hden]
  · intro a b hb hden
    simp [evaluateEquation, hb, qdiv_eq, hden]
  · intro a b hb
    have hx : xdiv (XQ.fin a) (XQ.fin b) = XQ.fin (a / b) := by
      simp [xdiv, hb, qdiv_eq]
    simp [serverEvaluateEquation, jsPass1, isMulDivV, jsPass2Server, hx]
  · rw [h52]; decide
  · rw [h52]; decide

/-- C7 witness: the division clauses instantiated at 10 / 4, 10 / 2 and
division by zero. -/
theorem c7_division_semantics_witness :
    evaluateEquation 10 Op.div 4 = none ∧
    evaluateEquation 10 Op.div 2 = some (10 / 2) ∧
    serverEvaluateEquation [10, 4] [CellValue.vop Op.div] = XQ.fin (10 / 4) :=
  ⟨c7_division_semantics.2.2.1 10 4 (by norm_num) (by norm_num),
   c7_division_semantics.2.2.2.1 10 2 (by norm_num) (by norm_num),
   c7_division_semantics.2.2.2.2.1 10 4 (by norm_num)⟩

/-- An all-check fails as soon as one listed element fails the
predicate. -/
theorem all_eq_false_of_mem {α : Type} {l : List α} {p : α → Bool} {x : α}
    (hx : x ∈ l) (hp : p x = false) : l.all p = false := by
  cases hall : l.all p with
  | false => rfl
  | true =>
      have := List.all_eq_true.mp hall x hx
      rw [hp] at this
      exact absurd this (by simp)

/-- Membership in the even-index list. -/
theorem mem_evenIndicesBelow {n i : ℕ} (h1 : i < n) (h2 : i % 2 = 0) :
    i ∈ evenIndicesBelow n := by
  simp [evenIndicesBelow, List.mem_filter, List.mem_range, h1, h2]

/-- C10: in the server validateSolution logic a blank, missing or
non-numeric operand value contributes 0: parseFloat-with-fallback maps
every non-numeric cell value to 0, the row extraction keeps every
number/input cell (mapping its value through that coercion, skipping
none), and consequently blankOkGrid — whose (0,0) Input cell is blank —
is judged isValid = true because 0 + 5 = 5 holds. -/
theorem c10_blank_contributes_zero :
    toNumberOr0 CellValue.empty = 0 ∧
    (∀ o : Op, toNumberOr0 (CellValue.vop o) = 0) ∧
    toNumberOr0 CellValue.veq = 0 ∧
    (∀ cells : List Cell,
        (serverCollectRow cells).1 =
          (cells.filter (fun c =>
            decide (c.ctype = CellType.number ∨ c.ctype = CellType.input))).map
            (fun c => toNumberOr0 c.value)) ∧
    gcell blankOkGrid 0 0 = some ⟨CellType.input, CellValue.empty, true, 0, 0⟩ ∧
    (validateSolution blankOkGrid).isValid = true := by
  refine ⟨rfl, fun _ => rfl, rfl, ?_, by decide, by decide⟩
  intro cells
  induction cells with
  | nil => rfl
  | cons c rest ih =>
      by_cases h1 : c.ctype = CellType.number ∨ c.ctype = CellType.input
      · simp [serverCollectRow, List.filter_cons, h1, ih]
      · by_cases h2 : c.ctype = CellType.operator ∧ c.value ≠ CellValue.veq
        · simp [serverCollectRow, List.filter_cons, h1, h2, ih]
        · simp [serverCollectRow, List.filter_cons, h1, h2, ih]

/-- C3 (amended): completeness gating lives in the client
getEquationStatus, not in the server validateSolution.  In each of the
four client status paths, isValid = true forces isComplete = true, and a
blank cell at any operand position (an even column of the row, or an
even row of the column; the five value columns for the dual rows) forces
isComplete = false. -/
theorem c3_client_completeness_gating :
    (∀ (gridSize row : ℕ) (cells : List Cell) (st : CStatus),
        clientSingleHRow gridSize row cells = some st →
        (st.isValid = true → st.isComplete = true) ∧
        (∀ col, col < gridSize → col % 2 = 0 → clientBlankAt cells col = true →
          st.isComplete = false)) ∧
    (∀ (row : ℕ) (cells : List Cell),
        ((clientDualHRow row cells).isValid = true →
          (clientDualHRow row cells).isComplete = true) ∧
        (∀ col, col ∈ [0, 2, 4, 6, 8] → clientBlankAt cells col = true →
          (clientDualHRow row cells).isComplete = false)) ∧
    (∀ (grid : Grid) (gridSize col : ℕ) (st : CStatus),
        clientSingleVCol grid gridSize col = some st →
        (st.isValid = true → st.isComplete = true) ∧
        (∀ r, r < gridSize → r % 2 = 0 → clientBlankAtG grid r col = true →
          st.isComplete = false)) ∧
    (∀ (grid : Grid) (gridSize col : ℕ),
        ((clientDualVCol grid gridSize col).isValid = true →
          (clientDualVCol grid gridSize col).isComplete = true) ∧
        (∀ r, r < gridSize → r % 2 = 0 → clientBlankAtG grid r col = true →
          (clientDualVCol grid gridSize col).isComplete = false)) := by
  refine ⟨?_, ?_, ?_, ?_⟩
  · intro gridSize row cells st h
    simp only [clientSingleHRow] at h
    split at h
    · simp only [Option.some.injEq] at h
      subst h
      constructor
      · intro hv
        exact (Bool.and_eq_true _ _ |>.mp hv).2
      · intro col hlt hmod hblank
        exact all_eq_false_of_mem (mem_evenIndicesBelow hlt hmod)
          (by simp [hblank])
    · exact absurd h (by simp)
  · intro row cells
    constructor
    · intro hv
      have : (clientDualHRow row cells).isValid
          = ((xNear (clientEvaluateEquation
                [toNumberOr0 ((cellValueAt cells 0).getD CellValue.empty),
                 toNumberOr0 ((cellValueAt cells 2).getD CellValue.empty)]
                [clientOpOf (cellValueAt cells 1)])
              (toNumberOr0 ((cellValueAt cells 4).getD CellValue.empty)) &&
             xNear (clientEvaluateEquation
                [toNumberOr0 ((cellValueAt cells 4).getD CellValue.empty),
                 toNumberOr0 ((cellValueAt cells 6).getD CellValue.empty)]
                [clientOpOf (cellValueAt cells 5)])
              (toNumberOr0 ((cellValueAt cells 8).getD CellValue.empty))) &&
             (clientDualHRow row cells).isComplete) := rfl
      rw [this] at hv
      exact (Bool.and_eq_true _ _ |>.mp hv).2
    · intro col hmem hblank
      exact all_eq_false_of_mem hmem (by simp [hblank])
  · intro grid gridSize col st h
    simp only [clientSingleVCol] at h
    split at h
    · simp only [Option.some.injEq] at h
      subst h
      constructor
      · intro hv
        exact (Bool.and_eq_true _ _ |>.mp hv).2
      · intro r hlt hmod hblank
        exact all_eq_false_of_mem (mem_evenIndicesBelow hlt hmod)
          (by simp [hblank])
    · exact absurd h (by simp)
  · intro grid gridSize col
    constructor
    · intro hv
      have : (clientDualVCol grid gridSize col).isValid
          = ((xNear (clientEvaluateEquation
                [toNumberOr0 (((gcell grid 0 col).map Cell.value).getD CellValue.empty),
                 toNumberOr0 (((gcell grid 2 col).map Cell.value).getD CellValue.empty)]
                [clientOpOf ((gcell grid 1 col).map Cell.value)])
              (toNumberOr0 (((gcell grid 4 col).map Cell.value).getD CellValue.empty)) &&
             xNear (clientEvaluateEquation
                [toNumberOr0 (((gcell grid 4 col).map Cell.value).getD CellValue.empty),
                 toNumberOr0 (((gcell grid 6 col).map Cell.value).getD CellValue.empty)]
                [clientOpOf ((gcell grid 5 col).map Cell.value)])
              (toNumberOr0 (((gcell grid 8 col).map Cell.value).getD CellValue.empty))) &&
             (clientDualVCol grid gridSize col).isComplete) := rfl
      rw [this] at hv
      exact (Bool.and_eq_true _ _ |>.mp hv).2
    · intro r hlt hmod hblank
      exact all_eq_false_of_mem (mem_evenIndicesBelow hlt hmod) (by simp [hblank])

/-- C3 witness: the gating instantiated on blankOkGrid's first row,
whose status carries isComplete = false because of the blank (0,0)
cell. -/
theorem c3_client_completeness_gating_witness :
    clientSingleHRow 5 0 (blankOkGrid.getD 0 []) = some ⟨0, false, false⟩ ∧
    (⟨0, false, false⟩ : CStatus).isComplete = false := by
  have hs : clientSingleHRow 5 0 (blankOkGrid.getD 0 []) = some ⟨0, false, false⟩ := by
    decide
  have hc := (c3_client_completeness_gating.1 5 0 (blankOkGrid.getD 0 [])
    ⟨0, false, false⟩ hs).2 0 (by decide) (by decide) (by decide)
  exact ⟨hs, hc⟩

/-- The 9x9 row of the dual-equation independence test with the wrong
intermediate result: 3 + 2 = 6, 6 - 1 = 5. -/
def c9RowBad : List Cell :=
  [⟨CellType.number, CellValue.num 3, false, 0, 0⟩,
   ⟨CellType.operator, CellValue.vop Op.add, false, 0, 1⟩,
   ⟨CellType.number, CellValue.num 2, false, 0, 2⟩,
   ⟨CellType.operator, CellValue.veq, false, 0, 3⟩,
   ⟨CellType.number, CellValue.num 6, false, 0, 4⟩,
   ⟨CellType.operator, CellValue.vop Op.sub, false, 0, 5⟩,
   ⟨CellType.number, CellValue.num 1, false, 0, 6⟩,
   ⟨CellType.operator, CellValue.veq, false, 0, 7⟩,
   ⟨CellType.number, CellValue.num 5, false, 0, 8⟩]

/-- The same row with both mini-equations correct: 3 + 2 = 5,
5 - 1 = 4. -/
def c9RowGood : List Cell :=
  [⟨CellType.number, CellValue.num 3, false, 0, 0⟩,
   ⟨CellType.operator, CellValue.vop Op.add, false, 0, 1⟩,
   ⟨CellType.number, CellValue.num 2, false, 0, 2⟩,
   ⟨CellType.operator, CellValue.veq, false, 0, 3⟩,
   ⟨CellType.number, CellValue.num 5, false, 0, 4⟩,
   ⟨CellType.operator, CellValue.vop Op.sub, false, 0, 5⟩,
   ⟨CellType.number, CellValue.num 1, false, 0, 6⟩,
   ⟨CellType.operator, CellValue.veq, false, 0, 7⟩,
   ⟨CellType.number, CellValue.num 4, false, 0, 8⟩]

/-- A 9-row grid whose first row is c9RowGood (the other rows are empty
and skipped by the horizontal scan). -/
def c9Grid : Grid := [c9RowGood, [], [], [], [], [], [], [], []]

/-- C9: on a 9x9 grid a row is valid only if BOTH mini-equations hold
independently within tolerance: validity of a dual row status forces the
tolerance check of each mini-equation; the horizontal scan of a 9-row
grid classifies its rows with the dual status; and concretely the row
3 + 2 = 6, 6 - 1 = 5 is invalid (although its second mini-equation alone
holds numerically) while the corrected row with r1 = 5 (3 + 2 = 5,
5 - 1 = 4) is valid. -/
theorem c9_dual_row_independence :
    (∀ (row : ℕ) (cells : List Cell),
        (serverDualHRow row cells).isValid = true →
        xNear (serverEvaluateEquation
            [toNumberOr0 ((cellValueAt cells 0).getD CellValue.empty),
             toNumberOr0 ((cellValueAt cells 2).getD CellValue.empty)]
            [serverOpOf (cellValueAt cells 1)])
          (toNumberOr0 ((cellValueAt cells 4).getD CellValue.empty)) = true ∧
        xNear (serverEvaluateEquation
            [toNumberOr0 ((cellValueAt cells 4).getD CellValue.empty),
             toNumberOr0 ((cellValueAt cells 6).getD CellValue.empty)]
            [serverOpOf (cellValueAt cells 5)])
          (toNumberOr0 ((cellValueAt cells 8).getD CellValue.empty)) = true) ∧
    (∀ (grid : Grid) (cells : List Cell), grid.length = 9 →
        grid.get? 0 = some cells → cells.length ≠ 0 →
        (validateHorizontalEquations grid).get? 0 = some (serverDualHRow 0 cells)) ∧
    serverDualHRow 0 c9RowBad = ⟨0, false⟩ ∧
    xNear (serverEvaluateEquation [6, 1] [CellValue.vop Op.sub]) 5 = true ∧
    serverDualHRow 0 c9RowGood = ⟨0, true⟩ := by
  refine ⟨?_, ?_, by decide, by decide, by decide⟩
  · intro row cells h
    have hval : (serverDualHRow row cells).isValid
        = (xNear (serverEvaluateEquation
            [toNumberOr0 ((cellValueAt cells 0).getD CellValue.empty),
             toNumberOr0 ((cellValueAt cells 2).getD CellValue.empty)]
            [serverOpOf (cellValueAt cells 1)])
          (toNumberOr0 ((cellValueAt cells 4).getD CellValue.empty)) &&
          xNear (serverEvaluateEquation
            [toNumberOr0 ((cellValueAt cells 4).getD CellValue.empty),
             toNumberOr0 ((cellValueAt cells 6).getD CellValue.empty)]
            [serverOpOf (cellValueAt cells 5)])
          (toNumberOr0 ((cellValueAt cells 8).getD CellValue.empty))) := rfl
    rw [hval] at h
    exact Bool.and_eq_true _ _ |>.mp h
  · intro grid cells h9 h0 hne
    have he : evenIndicesBelow 9 = [0, 2, 4, 6, 8] := rfl
    simp only [validateHorizontalEquations, h9, he, List.filterMap_cons, h0]
    simp [hne]

/-- C9 witness: the only-if direction applied to the valid concrete row
c9RowGood, and the grid-level conjunct applied to c9Grid. -/
theorem c9_dual_row_independence_witness :
    xNear (serverEvaluateEquation
        [toNumberOr0 ((cellValueAt c9RowGood 0).getD CellValue.empty),
         toNumberOr0 ((cellValueAt c9RowGood 2).getD CellValue.empty)]
        [serverOpOf (cellValueAt c9RowGood 1)])
      (toNumberOr0 ((cellValueAt c9RowGood 4).getD CellValue.empty)) = true ∧
    (validateHorizontalEquations c9Grid).get? 0 = some (serverDualHRow 0 c9RowGood) :=
  ⟨(c9_dual_row_independence.1 0 c9RowGood (by decide)).1,
   c9_dual_row_independence.2.1 c9Grid c9RowGood (by decide) (by decide) (by decide)⟩

/-- The per-cell relationship between a player-grid cell and the
corresponding solution cell in a generated puzzle: identical type and
editability, editability exactly on Input cells, Input cells blank in
the player grid and filled in the solution, and non-editable cells
carrying equal values that are non-empty except on Blocked filler. -/
def pairOK (g s : Cell) : Prop :=
  g.ctype = s.ctype ∧ g.isEditable = s.isEditable ∧
  (g.isEditable = true ↔ g.ctype = CellType.input) ∧
  (g.ctype = CellType.input → g.value = CellValue.empty ∧ s.value ≠ CellValue.empty) ∧
  (g.isEditable = false →
    g.value = s.value ∧ (g.ctype ≠ CellType.blocked → g.value ≠ CellValue.empty))

theorem pairOK_inputPair (v : ℚ) (row col : ℕ) :
    pairOK (inputPair v row col).1 (inputPair v row col).2 := by
  simp [pairOK, inputPair]

theorem pairOK_numberPair (v : ℚ) (row col : ℕ) :
    pairOK (numberPair v row col).1 (numberPair v row col).2 := by
  simp [pairOK, numberPair]

theorem pairOK_operatorPair (o : Op) (row col : ℕ) :
    pairOK (operatorPair o row col).1 (operatorPair o row col).2 := by
  simp [pairOK, operatorPair]

theorem pairOK_equalsPair (row col : ℕ) :
    pairOK (equalsPair row col).1 (equalsPair row col).2 := by
  simp [pairOK, equalsPair]

theorem pairOK_blockedPair (row col : ℕ) :
    pairOK (blockedPair row col).1 (blockedPair row col).2 := by
  simp [pairOK, blockedPair]

theorem pairOK_valueCellPair (b : Bool) (v : ℚ) (row col : ℕ) :
    pairOK (valueCellPair b v row col).1 (valueCellPair b v row col).2 := by
  cases b
  · exact pairOK_inputPair v row col
  · exact pairOK_numberPair v row col

/-- Structural well-formedness of a generated puzzle pair: equal row
counts, equal row lengths, and pairOK at every common position. -/
def WellFormedPair (p : Puzzle) : Prop :=
  p.grid.length = p.solution.length ∧
  (∀ i, (p.grid.get? i).map List.length = (p.solution.get? i).map List.length) ∧
  (∀ r c gc sc, gcell p.grid r c = some gc → gcell p.solution r c = some sc →
    pairOK gc sc)

/-- Two-dimensional lookup into a range-built grid of cells. -/
theorem get2d_map_range {α : Type} (n : ℕ) (g : ℕ → ℕ → α) (r c : ℕ) :
    (((List.range n).map
        (fun row => (List.range n).map (fun col => g row col))).get? r).bind
      (fun rw => rw.get? c) = if r < n ∧ c < n then some (g r c) else none := by
  by_cases hr : r < n
  · rw [List.get?_map, List.get?_range hr]
    by_cases hc : c < n
    · rw [Option.map_some', Option.some_bind, List.get?_map, List.get?_range hc,
        Option.map_some', if_pos ⟨hr, hc⟩]
    · have hnone : ((List.range n).map (fun col => g r col)).get? c = none := by
        rw [List.get?_eq_none]
        simp only [List.length_map, List.length_range]
        omega
      rw [Option.map_some', Option.some_bind, hnone, if_neg (by tauto)]
  · have hnone : ((List.range n).map
        (fun row => (List.range n).map (fun col => g row col))).get? r = none := by
      rw [List.get?_eq_none]
      simp only [List.length_map, List.length_range]
      omega
    rw [hnone, Option.none_bind, if_neg (by tauto)]

theorem gcell_mkGridsAux_grid (n : ℕ) (f : ℕ → ℕ → Cell × Cell) (r c : ℕ) :
    gcell (mkGridsAux n f).grid r c =
      if r < n ∧ c < n then some (f r c).1 else none :=
  get2d_map_range n (fun row col => (f row col).1) r c

theorem gcell_mkGridsAux_solution (n : ℕ) (f : ℕ → ℕ → Cell × Cell) (r c : ℕ) :
    gcell (mkGridsAux n f).solution r c =
      if r < n ∧ c < n then some (f r c).2 else none :=
  get2d_map_range n (fun row col => (f row col).2) r c

/-- A range-built puzzle pair is well formed whenever every cell pair
is. -/
theorem mkGridsAux_wf (n : ℕ) (f : ℕ → ℕ → Cell × Cell)
    (hf : ∀ r c, pairOK (f r c).1 (f r c).2) : WellFormedPair (mkGridsAux n f) := by
  refine ⟨by simp [mkGridsAux], ?_, ?_⟩
  · intro i
    simp only [mkGridsAux, List.get?_map]
    cases (List.range n).get? i <;> simp
  · intro r c gc sc hg hs
    rw [gcell_mkGridsAux_grid] at hg
    rw [gcell_mkGridsAux_solution] at hs
    by_cases h : r < n ∧ c < n
    · rw [if_pos h] at hg hs
      obtain rfl : (f r c).1 = gc := by injection hg
      obtain rfl : (f r c).2 = sc := by injection hs
      exact hf r c
    · rw [if_neg h] at hg
      exact absurd hg (by simp)

theorem build9CellPair_ok (valueGrid : List (List ℚ)) (hOps vOps : List (List Op))
    (r c : ℕ) :
    pairOK (build9CellPair valueGrid hOps vOps r c).1
      (build9CellPair valueGrid hOps vOps r c).2 := by
  simp only [build9CellPair]
  split_ifs <;>
    first
      | exact pairOK_valueCellPair _ _ _ _
      | exact pairOK_equalsPair _ _
      | exact pairOK_operatorPair _ _ _
      | exact pairOK_blockedPair _ _

theorem smallCellPair_ok (size numEqRows numValues : ℕ)
    (allRows : List (List ℚ × List Op)) (verticalOps : List (List Op))
    (vOps : List Op) (r c : ℕ) :
    pairOK (smallCellPair size numEqRows numValues allRows verticalOps vOps r c).1
      (smallCellPair size numEqRows numValues allRows verticalOps vOps r c).2 := by
  simp only [smallCellPair]
  split_ifs <;>
    first
      | exact pairOK_valueCellPair _ _ _ _
      | exact pairOK_equalsPair _ _
      | exact pairOK_operatorPair _ _ _
      | exact pairOK_blockedPair _ _

theorem fallbackPatternPair_ok (r c : ℕ) (hr : r < 5) (hc : c < 5) :
    pairOK (fallbackPatternPair r c).1 (fallbackPatternPair r c).2 := by
  interval_cases r <;> interval_cases c <;>
    first
      | exact pairOK_numberPair _ _ _
      | exact pairOK_operatorPair _ _ _
      | exact pairOK_inputPair _ _ _
      | exact pairOK_equalsPair _ _
      | exact pairOK_blockedPair _ _

theorem generateFallbackPuzzle_wf (cfg : DifficultyConfig) :
    WellFormedPair (generateFallbackPuzzle cfg) := by
  apply mkGridsAux_wf
  intro r c
  split_ifs with h
  · exact fallbackPatternPair_ok r c h.1 h.2
  · exact pairOK_blockedPair r c

theorem buildDualEquationGridsFromValues_wf (valueGrid : List (List ℚ))
    (cfg : DifficultyConfig) :
    WellFormedPair (buildDualEquationGridsFromValues valueGrid cfg) := by
  apply mkGridsAux_wf
  intro r c
  exact build9CellPair_ok _ _ _ r c

theorem attemptPuzzleGeneration9x9_wf {cfg : DifficultyConfig} {r : Rng}
    {p : Puzzle} {rout : Rng}
    (h : attemptPuzzleGeneration9x9 cfg r = (some p, rout)) : WellFormedPair p := by
  simp only [attemptPuzzleGeneration9x9] at h
  split at h
  · simp at h
  · have hp : some _ = some p := congrArg Prod.fst h
    obtain rfl : _ = p := by injection hp
    exact buildDualEquationGridsFromValues_wf _ _

theorem attemptPuzzleGeneration_wf {cfg : DifficultyConfig} {r : Rng}
    {p : Puzzle} {rout : Rng}
    (h : attemptPuzzleGeneration cfg r = (some p, rout)) : WellFormedPair p := by
  simp only [attemptPuzzleGeneration] at h
  split at h
  · simp at h
  · split at h
    · simp at h
    · split at h
      · simp at h
      · have hp : some _ = some p := congrArg Prod.fst h
        obtain rfl : _ = p := by injection hp
        exact mkGridsAux_wf _ _ (fun a b => smallCellPair_ok _ _ _ _ _ _ a b)

theorem attemptFor_wf {cfg : DifficultyConfig} {r : Rng} {p : Puzzle} {rout : Rng}
    (h : attemptFor cfg r = (some p, rout)) : WellFormedPair p := by
  unfold attemptFor at h
  split at h
  · exact attemptPuzzleGeneration9x9_wf h
  · exact attemptPuzzleGeneration_wf h

theorem generatePuzzleLoop_wf (cfg : DifficultyConfig) :
    ∀ (n : ℕ) (r : Rng), WellFormedPair (generatePuzzleLoop cfg n r) := by
  intro n
  induction n with
  | zero => intro r; exact generateFallbackPuzzle_wf cfg
  | succ n ih =>
      intro r
      cases ha : attemptFor cfg r with
      | mk o r1 =>
          cases o with
          | some p =>
              have hp : generatePuzzleLoop cfg (n + 1) r = p := by
                simp [generatePuzzleLoop, ha]
              rw [hp]
              exact attemptFor_wf ha
          | none =>
              have hp : generatePuzzleLoop cfg (n + 1) r = generatePuzzleLoop cfg n r1 := by
                simp [generatePuzzleLoop, ha]
              rw [hp]
              exact ih r1

/-- C8 (amended): every puzzle pair returned by generatePuzzle (any
difficulty, any draws) is structurally well formed: identical
dimensions, identical cell type and editability at every position,
isEditable exactly on Input cells, Input cells blank in the player grid
and non-empty in the solution, and every non-editable cell carrying in
the player grid a value equal to the solution's, which is non-empty
except on Blocked filler cells (whose value is the empty string in both
grids). -/
theorem c8_structural_invariants :
    ∀ (d : Difficulty) (r : Rng), WellFormedPair (generatePuzzle d r) :=
  fun d r => generatePuzzleLoop_wf (adjustedConfig (configFor d))
    (maxAttemptsFor (adjustedConfig (configFor d))) r

/-- C8 witness: the invariants instantiated on the easy puzzle generated
under the all-zero stream. -/
theorem c8_structural_invariants_witness :
    WellFormedPair (generatePuzzle Difficulty.easy zeroStream) :=
  c8_structural_invariants Difficulty.easy zeroStream
